import Mathlib

/-!
Verification development for the react-flush-observer detection core.

This file gives a shallow embedding, in Lean, of the detection-and-intervention
engine of the repository (src/classifier.ts, src/walker.ts, src/stack-parser.js,
src/detector.ts, src/constants.ts), together with theorems settling the claims
about it.

Modelling conventions:
* JavaScript numbers used as timestamps (`Date.now()`) are modelled as `Int`;
  lane / flag bitmasks are `Nat` with explicit bit operations.
* `string | null` fields are `Option String`; JavaScript truthiness of strings
  (where the empty string is falsy) is modelled explicitly where the source
  relies on it.
* Each call to `handleCommit` receives a `CommitEvent` carrying the values the
  environment supplies during that call: the clock reading (`Date.now()`), the
  outcome of the sampling draw (`Math.random() < sampleRate`), and the strings
  `new Error().stack` would produce at the two capture sites.
* `setTimeout(..., 0)` / `queueMicrotask` callbacks are reified as `Scheduled`
  values; running such a callback is the function `runScheduled`.  The
  `MessageChannel` task-boundary message is the function `onTaskBoundary`.
* The circular effect list hanging off `fiber.updateQueue.lastEffect` is
  modelled as the finite list of its nodes in traversal order (starting at
  `lastEffect.next`); an absent `lastEffect` is the empty list.
-/

namespace FlushObserver

/-! ## Constants (src/constants.ts) -/

def FunctionComponent : Nat := 0
def ClassComponent : Nat := 1
def SuspenseComponent : Nat := 13
def OffscreenComponent : Nat := 22

def Placement : Nat := 1
def Passive : Nat := 2048
def Update : Nat := 4
def LayoutMask : Nat := 36
def DidCapture : Nat := 1024
def Visibility : Nat := 8192

def DEFAULT_MAX_COMMITS_PER_TASK : Nat := 50
def DEFAULT_MAX_COMMITS_PER_WINDOW : Nat := 50
def DEFAULT_WINDOW_MS : Int := 1000

def SyncLane : Nat := 1
def NoLane : Nat := 0

def HookHasEffect : Nat := 1
def HookLayout : Nat := 4

/-! ## JavaScript string helpers -/

/-- JavaScript `a || b` for `string | null | undefined` operands: the empty
string is falsy and falls through to `b`. -/
def jsStringOr (a b : Option String) : Option String :=
  match a with
  | some s => if s = "" then b else some s
  | none => b

/-- JavaScript truthiness of a `string | null` value. -/
def truthyStr (a : Option String) : Bool :=
  match a with
  | some s => s ≠ ""
  | none => false

/-- A JavaScript word character (`\w` = `[A-Za-z0-9_]`). -/
def isWordChar (c : Char) : Bool :=
  (c ≥ 'a' && c ≤ 'z') || (c ≥ 'A' && c ≤ 'Z') || (c ≥ '0' && c ≤ '9') || c = '_'

/-- Does `cs` start with `pat`, with the character following the occurrence (if
any) not a word character?  This is the right half of a `\bpat\b` match. -/
def startsWithWordEnd (pat cs : List Char) : Bool :=
  match pat, cs with
  | [], [] => true
  | [], c :: _ => !isWordChar c
  | _ :: _, [] => false
  | p :: ps, c :: rest => p = c && startsWithWordEnd ps rest

/-- Scan `cs` for an occurrence of `pat` delimited by word boundaries on both
sides (`prev` is the character immediately before the current position). -/
def scanWordOccurrence (pat : List Char) (prev : Option Char) : List Char → Bool
  | [] => false
  | c :: rest =>
    (boundaryBefore prev && startsWithWordEnd pat (c :: rest))
      || scanWordOccurrence pat (some c) rest
where
  boundaryBefore : Option Char → Bool
    | none => true
    | some p => !isWordChar p

/-- src/detector.ts `hasFlushSyncInStack`: `/\bflushSync\b/.test(stack)` after
the falsy guard (`null` and the empty string both return `false`). -/
def hasFlushSyncInStack (stack : Option String) : Bool :=
  match stack with
  | none => false
  | some s => if s = "" then false else scanWordOccurrence "flushSync".toList none s.toList

/-- Substring containment (JavaScript `String.prototype.includes`). -/
def containsSub (haystack needle : List Char) : Bool :=
  match haystack with
  | [] => needle = []
  | _ :: rest => needle.isPrefixOf haystack || containsSub rest needle

/-! ## Stack parser (src/stack-parser.js) -/

structure SourceInfo where
  fileName : Option String
  lineNumber : Option Nat
  columnNumber : Option Nat
deriving DecidableEq, Repr

/-- The substrings marking internal (non-user) stack frames. -/
def internalPatterns : List String :=
  ["node_modules", "react-flush-observer", "react-dom", "react-reconciler",
   "scheduler", "react.development"]

/-- Source `isInternalFrame`: the lower-cased line contains one of the internal
substrings. -/
def isInternalFrame (line : List Char) : Bool :=
  let lower := line.map Char.toLower
  internalPatterns.any fun p => containsSub lower p.toList

/-- JavaScript `\s` whitespace (the characters that occur in stack strings). -/
def isJsSpace (c : Char) : Bool :=
  c = ' ' || c = '\t' || c = '\r' || c = '\x0c' || c = '\x0b'

def isDigitChar (c : Char) : Bool := c ≥ '0' && c ≤ '9'

/-- Greedy run of decimal digits at the front of `cs`; returns the digits and
the remainder. -/
def digitRun : List Char → List Char × List Char
  | [] => ([], [])
  | c :: rest =>
    if isDigitChar c then
      let (ds, r) := digitRun rest
      (c :: ds, r)
    else ([], c :: rest)

def digitsToNat (ds : List Char) : Nat :=
  ds.foldl (fun acc c => acc * 10 + (c.toNat - '0'.toNat)) 0

/-- Match `^(\d+):(\d+)\)?$` against `cs` (the part of a frame line following
the file name and its colon): line number, colon, column number, optional
closing parenthesis, end of line. -/
def matchLineColEnd (cs : List Char) : Option (Nat × Nat) :=
  let (ds1, r1) := digitRun cs
  if ds1 = [] then none
  else
    match r1 with
    | ':' :: r2 =>
      let (ds2, r3) := digitRun r2
      if ds2 = [] then none
      else
        match r3 with
        | [] => some (digitsToNat ds1, digitsToNat ds2)
        | [')'] => some (digitsToNat ds1, digitsToNat ds2)
        | _ => none
    | _ => none

/-- The lazy group `(.+?):(\d+):(\d+)\)?$`: try the shortest non-empty file
name first, i.e. stop at the leftmost colon whose remainder matches
`(\d+):(\d+)\)?$`.  `acc` holds the (reversed) file-name characters read so
far. -/
def lazyFileSplit (acc : List Char) : List Char → Option (String × Nat × Nat)
  | [] => none
  | c :: rest =>
    if c = ':' && acc ≠ [] then
      match matchLineColEnd rest with
      | some (l, col) => some (String.mk acc.reverse, l, col)
      | none => lazyFileSplit (c :: acc) rest
    else lazyFileSplit (c :: acc) rest

/-- The greedy optional group `(?:.*?\s+\()?` followed by the file/line/column
tail: `.*?` is lazy, so the group consumes up to the earliest `\s+\(`
occurrence whose remainder matches; if no such occurrence lets the tail match,
the group matches the empty string. -/
def tryParenGroup : List Char → Option (String × Nat × Nat)
  | [] => none
  | c :: rest =>
    if isJsSpace c then
      -- candidate `\s+\(`: consume the maximal whitespace run, require `(`
      match afterSpaces rest with
      | '(' :: r2 =>
        match lazyFileSplit [] r2 with
        | some out => some out
        | none => tryParenGroup rest
      | _ => tryParenGroup rest
    else tryParenGroup rest
where
  afterSpaces : List Char → List Char
    | [] => []
    | c :: rest => if isJsSpace c then afterSpaces rest else c :: rest

def groupThenTail (cs : List Char) : Option (String × Nat × Nat) :=
  match tryParenGroup cs with
  | some out => some out
  | none => lazyFileSplit [] cs

/-- One attempt of the frame pattern
`/at\s+(?:.*?\s+\()?(.+?):(\d+):(\d+)\)?$/` at the head of `cs`: expect the
literal `at`, at least one whitespace character, then the optional
parenthesised-name group and the captured file/line/column tail. -/
def matchFrameAt (cs : List Char) : Option (String × Nat × Nat) :=
  match cs with
  | 'a' :: 't' :: rest =>
    match rest with
    | c :: r2 =>
      if isJsSpace c then
        -- `\s+` is greedy; taking the maximal run first is observationally
        -- equivalent here because the group and the lazy file name can both
        -- begin with whitespace characters.
        matchFrameBody (skipSpaces r2)
      else none
    | [] => none
  | _ => none
where
  skipSpaces : List Char → List Char
    | [] => []
    | c :: rest => if isJsSpace c then skipSpaces rest else c :: rest
  matchFrameBody (body : List Char) : Option (String × Nat × Nat) :=
    groupThenTail body

/-- Matching `framePattern.exec(line)`: try the pattern at each start position, leftmost
first. -/
def execFramePattern : List Char → Option (String × Nat × Nat)
  | [] => none
  | c :: rest =>
    match matchFrameAt (c :: rest) with
    | some out => some out
    | none => execFramePattern rest

/-- Split on newline characters (JavaScript `stack.split('\n')`). -/
def splitLines (cs : List Char) : List (List Char) :=
  match cs with
  | [] => [[]]
  | '\n' :: rest => [] :: splitLines rest
  | c :: rest =>
    match splitLines rest with
    | [] => [[c]]
    | l :: ls => (c :: l) :: ls

/-- src/stack-parser.js `parseUserFrame`: first non-internal frame line that
contains `at ` and matches the V8 frame pattern. -/
def parseUserFrame (stack : Option String) : Option SourceInfo :=
  match stack with
  | none => none
  | some s =>
    if s = "" then none
    else firstUserFrame (splitLines s.toList)
where
  firstUserFrame : List (List Char) → Option SourceInfo
    | [] => none
    | line :: rest =>
      if !containsSub line "at ".toList then firstUserFrame rest
      else if isInternalFrame line then firstUserFrame rest
      else
        match execFramePattern line with
        | some (fn, l, col) => some ⟨some fn, some l, some col⟩
        | none => firstUserFrame rest

/-! ## Fiber data model (src/types.ts) -/

structure DebugSource where
  fileName : Option String
  lineNumber : Option Nat
  columnNumber : Option Nat
deriving DecidableEq, Repr

/-- One node of the circular effect list.  `createSource` is the result of
`effect.create.toString()` (`none` models the call throwing). -/
structure EffectRec where
  tag : Nat
  createSource : Option String
deriving DecidableEq, Repr

/-- Model of `fiber.updateQueue`: the effect list in traversal order, beginning at
`lastEffect.next`.  An absent `lastEffect` is the empty list. -/
structure UpdateQueue where
  effects : List EffectRec
deriving DecidableEq, Repr

/-- Model of `fiber.type`: `null`, a host tag string, a function component, or an
object component (e.g. `forwardRef`).  Function and object types carry the
optional `displayName`, `name` and `__componentId` properties. -/
inductive FiberType where
  | nullType
  | strType (s : String)
  | funcType (displayName : Option String) (name : Option String) (componentId : Option String)
  | objType (displayName : Option String) (name : Option String) (componentId : Option String)
deriving DecidableEq, Repr

mutual

/-- A fiber node (the subset of fields the walker reads), together with
`FiberLink`, a nullable reference to another fiber (the `fiber | null` type of
the pointer fields).  The two types are mutually inductive so that the tree
traversals below are structurally recursive.  `memoizedState` is an identity
token: two fibers have `memoizedState !== alternate.memoizedState` exactly
when the tokens differ. -/
inductive Fiber where
  | mk (tag : Nat) (flags : Nat) (lanes : Nat) (childLanes : Nat)
       (type : FiberType)
       (updateQueue : Option UpdateQueue)
       (memoizedState : Option Nat)
       (debugSource : Option DebugSource)
       (debugOwner : FiberLink)
       (alternate : FiberLink)
       (child : FiberLink)
       (sibling : FiberLink)

inductive FiberLink where
  | null
  | ref (f : Fiber)

end

def Fiber.tag : Fiber → Nat
  | .mk t _ _ _ _ _ _ _ _ _ _ _ => t

def Fiber.flags : Fiber → Nat
  | .mk _ f _ _ _ _ _ _ _ _ _ _ => f

def Fiber.lanes : Fiber → Nat
  | .mk _ _ l _ _ _ _ _ _ _ _ _ => l

def Fiber.childLanes : Fiber → Nat
  | .mk _ _ _ cl _ _ _ _ _ _ _ _ => cl

def Fiber.type : Fiber → FiberType
  | .mk _ _ _ _ ty _ _ _ _ _ _ _ => ty

def Fiber.updateQueue : Fiber → Option UpdateQueue
  | .mk _ _ _ _ _ uq _ _ _ _ _ _ => uq

def Fiber.memoizedState : Fiber → Option Nat
  | .mk _ _ _ _ _ _ ms _ _ _ _ _ => ms

def Fiber.debugSource : Fiber → Option DebugSource
  | .mk _ _ _ _ _ _ _ ds _ _ _ _ => ds

def Fiber.debugOwner : Fiber → FiberLink
  | .mk _ _ _ _ _ _ _ _ o _ _ _ => o

def Fiber.alternate : Fiber → FiberLink
  | .mk _ _ _ _ _ _ _ _ _ a _ _ => a

def Fiber.child : Fiber → FiberLink
  | .mk _ _ _ _ _ _ _ _ _ _ c _ => c

def Fiber.sibling : Fiber → FiberLink
  | .mk _ _ _ _ _ _ _ _ _ _ _ s => s

/-! ## Snapshot types (src/types.ts) -/

structure FiberInfo where
  componentId : Option String
  tag : Nat
  type : FiberType
  ownerName : Option String
deriving DecidableEq, Repr

structure DetailedFiberInfo extends FiberInfo where
  source : Option SourceInfo
  componentStack : Option (List String)
  effectSource : Option String
deriving DecidableEq, Repr

structure SuspenseFiberInfo extends FiberInfo where
  resolvedName : Option String
deriving DecidableEq, Repr

structure UpdatesFiberInfo extends FiberInfo where
  lanes : Nat
deriving DecidableEq, Repr

structure FiberSnapshot where
  withPassiveEffects : List FiberInfo
  withLayoutEffects : List DetailedFiberInfo
  withSuspense : List SuspenseFiberInfo
  withUpdates : List UpdatesFiberInfo
deriving DecidableEq, Repr

def emptySnapshot : FiberSnapshot := ⟨[], [], [], []⟩

/-- Model of the fiber root object: `root.current` may be absent (the walker guards `if (rootFiber)`), and the
three scheduling slots are live mutable state.  While frozen, reads and writes
of those slots go through the accessor overrides installed by
`freezeRootLanes`; the `frozen` flag records whether the overrides are
installed and `frozenOriginals` models `root.__frozenOriginals`. -/
structure FrozenOriginals where
  pendingLanes : Nat
  callbackPriority : Nat
  callbackNode : Option Nat
deriving DecidableEq, Repr

structure RootState where
  current : FiberLink
  pendingLanes : Nat
  callbackPriority : Nat
  callbackNode : Option Nat
  frozen : Bool
  frozenOriginals : Option FrozenOriginals

/-! ## Walker (src/walker.ts) -/

/-- Source `getComponentName`: host strings are returned directly; function and
object types fall through `displayName || name || null`. -/
def getComponentName (f : Fiber) : Option String :=
  match f.type with
  | FiberType.nullType => none
  | FiberType.strType s => some s
  | FiberType.funcType d n _ => jsStringOr d (jsStringOr n none)
  | FiberType.objType d n _ => jsStringOr d (jsStringOr n none)

def getComponentId (f : Fiber) : Option String :=
  match f.type with
  | FiberType.funcType _ _ cid => cid
  | FiberType.objType _ _ cid => cid
  | _ => none

/-- Source `readDebugSource`: degrade to `null` fields; `fileName` uses `||` (empty
string becomes `null`) while the numbers use `??`. -/
def readDebugSource (f : Fiber) : Option SourceInfo :=
  match f.debugSource with
  | none => none
  | some ds => some ⟨jsStringOr ds.fileName none, ds.lineNumber, ds.columnNumber⟩

/-- The component name of a nullable fiber reference (`null` has none). -/
def linkComponentName : FiberLink → Option String
  | FiberLink.null => none
  | FiberLink.ref f => getComponentName f

/-- Source `buildComponentStack`: walk the `_debugOwner` chain collecting truthy
component names. -/
def ownerChainNames : FiberLink → List String
  | FiberLink.null => []
  | FiberLink.ref f =>
    match f with
    | Fiber.mk _ _ _ _ _ _ _ _ owner _ _ _ =>
      match getComponentName f with
      | some n => if n = "" then ownerChainNames owner else n :: ownerChainNames owner
      | none => ownerChainNames owner
termination_by structural l => l

def buildComponentStack (f : Fiber) : Option (List String) :=
  let stack := ownerChainNames f.debugOwner
  if stack.length > 0 then some stack else none

def isComponentFiber (f : Fiber) : Bool :=
  f.tag = FunctionComponent || f.tag = ClassComponent

namespace Walker

/-- src/walker.ts `readLayoutEffectSource`: traverse the circular effect list
once from `lastEffect.next`; return the stringified `create` of the first
effect whose tag intersects `HookLayout`. -/
def readLayoutEffectSource (f : Fiber) : Option String :=
  match f.updateQueue with
  | none => none
  | some q =>
    match q.effects with
    | [] => none
    | es =>
      match es.find? (fun e => (e.tag &&& HookLayout) ≠ 0) with
      | some e => e.createSource
      | none => none

/-- src/walker.ts `walkFiber`: depth-first traversal (children then siblings)
bucketing the nodes of one committed tree. -/
def walkFiber (fiber : Fiber) (nearest : FiberLink) (acc : FiberSnapshot) : FiberSnapshot :=
  match fiber with
  | Fiber.mk tag flags lanes childLanes ty _ _ _ _ _ child sibling =>
    let isComponent := isComponentFiber fiber
    let ownerName := linkComponentName nearest
    let baseInfo : FiberInfo :=
      { componentId := getComponentId fiber, tag := tag, type := ty, ownerName := ownerName }
    let acc :=
      if (flags &&& Passive) ≠ 0 then
        { acc with withPassiveEffects := acc.withPassiveEffects ++ [baseInfo] }
      else acc
    let acc :=
      if (flags &&& LayoutMask) ≠ 0 then
        { acc with withLayoutEffects := acc.withLayoutEffects ++
            [{ baseInfo with
                 source := readDebugSource fiber,
                 componentStack := buildComponentStack fiber,
                 effectSource := readLayoutEffectSource fiber }] }
      else acc
    let acc :=
      if tag = SuspenseComponent ∧ (flags &&& DidCapture) ≠ 0 then
        { acc with withSuspense := acc.withSuspense ++
            [{ baseInfo with resolvedName := linkComponentName child }] }
      else acc
    let acc :=
      if tag = OffscreenComponent ∧ (flags &&& Visibility) ≠ 0 then
        { acc with withSuspense := acc.withSuspense ++ [{ baseInfo with resolvedName := none }] }
      else acc
    let acc :=
      if lanes ≠ 0 ∨ childLanes ≠ 0 then
        { acc with withUpdates := acc.withUpdates ++
            [{ baseInfo with lanes := lanes ||| childLanes }] }
      else acc
    let acc :=
      match child with
      | FiberLink.ref c => walkFiber c (if isComponent then FiberLink.ref fiber else nearest) acc
      | FiberLink.null => acc
    match sibling with
    | FiberLink.ref sb => walkFiber sb nearest acc
    | FiberLink.null => acc
termination_by structural fiber

/-- src/walker.ts `snapshotCommitFibers`: tolerate an absent root fiber. -/
def snapshotCommitFibers (root : RootState) : FiberSnapshot :=
  match root.current with
  | FiberLink.ref rootFiber => walkFiber rootFiber FiberLink.null emptySnapshot
  | FiberLink.null => emptySnapshot

end Walker

namespace WalkerRevised

/-!
The later revision of the walker, bundled in the src/index.ts file of the
repository.  It differs from src/walker.ts in exactly the ways the spec
describes: the layout-effect bucket only admits component fibers, the effect
search requires `HookLayout` *and* `HookHasEffect`, suspense/visibility flags
must be newly set relative to the alternate, and state-changed component
fibers count as update-pending.
-/

/-- Bitwise 32-bit complement (JavaScript `~previous` inside `current & ~previous`). -/
def bitNot32 (x : Nat) : Nat := (2 ^ 32 - 1) - x % 2 ^ 32

/-- Source `hasNewFlags`: any bit of `mask` set on the fiber but not on its
alternate (all bits count as new on mount). -/
def hasNewFlags (f : Fiber) (mask : Nat) : Bool :=
  let current := f.flags &&& mask
  if current = 0 then false
  else
    match f.alternate with
    | FiberLink.null => true
    | FiberLink.ref alt => (current &&& bitNot32 (alt.flags &&& mask)) ≠ 0

/-- Revised `readLayoutEffectSource`: only match effects carrying both
`HookLayout` and `HookHasEffect`. -/
def readLayoutEffectSource (f : Fiber) : Option String :=
  match f.updateQueue with
  | none => none
  | some q =>
    match q.effects with
    | [] => none
    | es =>
      let needed := HookLayout ||| HookHasEffect
      match es.find? (fun e => (e.tag &&& needed) = needed) with
      | some e => e.createSource
      | none => none

/-- Revised `walkFiber`. -/
def walkFiber (fiber : Fiber) (nearest : FiberLink) (acc : FiberSnapshot) : FiberSnapshot :=
  match fiber with
  | Fiber.mk tag flags lanes childLanes ty _ ms _ _ alt child sibling =>
    let isComponent := isComponentFiber fiber
    let ownerName := linkComponentName nearest
    let baseInfo : FiberInfo :=
      { componentId := getComponentId fiber, tag := tag, type := ty, ownerName := ownerName }
    let acc :=
      if (flags &&& Passive) ≠ 0 then
        { acc with withPassiveEffects := acc.withPassiveEffects ++ [baseInfo] }
      else acc
    let acc :=
      if (flags &&& LayoutMask) ≠ 0 ∧ isComponent = true then
        { acc with withLayoutEffects := acc.withLayoutEffects ++
            [{ baseInfo with
                 source := readDebugSource fiber,
                 componentStack := buildComponentStack fiber,
                 effectSource := readLayoutEffectSource fiber }] }
      else acc
    let acc :=
      if tag = SuspenseComponent ∧ hasNewFlags fiber DidCapture = true then
        { acc with withSuspense := acc.withSuspense ++
            [{ baseInfo with resolvedName := linkComponentName child }] }
      else acc
    let acc :=
      if tag = OffscreenComponent ∧ hasNewFlags fiber Visibility = true then
        { acc with withSuspense := acc.withSuspense ++ [{ baseInfo with resolvedName := none }] }
      else acc
    let stateChanged :=
      isComponent && (match alt with
        | FiberLink.ref a => ms ≠ a.memoizedState
        | FiberLink.null => false)
    let acc :=
      if lanes ≠ 0 ∨ childLanes ≠ 0 ∨ stateChanged = true then
        { acc with withUpdates := acc.withUpdates ++
            [{ baseInfo with lanes := lanes ||| childLanes }] }
      else acc
    let acc :=
      match child with
      | FiberLink.ref c => walkFiber c (if isComponent then FiberLink.ref fiber else nearest) acc
      | FiberLink.null => acc
    match sibling with
    | FiberLink.ref sb => walkFiber sb nearest acc
    | FiberLink.null => acc
termination_by structural fiber

def snapshotFromFiber (rootFiber : Fiber) : FiberSnapshot :=
  walkFiber rootFiber FiberLink.null emptySnapshot

def snapshotCommitFibers (root : RootState) : FiberSnapshot :=
  match root.current with
  | FiberLink.ref rootFiber => snapshotFromFiber rootFiber
  | FiberLink.null => emptySnapshot

end WalkerRevised

/-! ## Classifier (src/classifier.ts) -/

inductive FlushPattern where
  | setStateOutsideReact
  | setStateInLayoutEffect
  | setStateViaMicrotask
  | setStateInObserver
  | lazyInRender
  | flushSync
deriving DecidableEq, Repr

structure ClassificationResult where
  pattern : FlushPattern
  suspects : List FiberInfo
  evidence : String
deriving DecidableEq, Repr

/-- src/classifier.ts `classifyPattern`: pure priority cascade over one
snapshot.  The upcasts `as FiberInfo[]` become `.toFiberInfo` projections. -/
def classifyPattern (snapshot : FiberSnapshot) : ClassificationResult :=
  if snapshot.withSuspense.length > 0 then
    { pattern := FlushPattern.lazyInRender,
      suspects := snapshot.withSuspense.map (·.toFiberInfo),
      evidence := "Suspense boundary captured during commit" }
  else if snapshot.withLayoutEffects.length > 0 then
    let withEffectSource := snapshot.withLayoutEffects.filter fun f => truthyStr f.effectSource
    { pattern := FlushPattern.setStateInLayoutEffect,
      suspects := (if withEffectSource.length > 0 then withEffectSource
                   else snapshot.withLayoutEffects).map (·.toFiberInfo),
      evidence := "Layout effect triggered state update" }
  else
    { pattern := FlushPattern.setStateOutsideReact,
      suspects := [],
      evidence := "Multiple commits in same task without React batching" }

/-! ## Detector (src/detector.ts) -/

inductive LoopPattern where
  | sync
  | async
deriving DecidableEq, Repr

structure FlushReport where
  timestamp : Int
  pattern : FlushPattern
  evidence : String
  suspects : List FiberInfo
  flushedEffectsCount : Nat
  blockingDurationMs : Int
  setStateLocation : Option SourceInfo
  userFrame : Option SourceInfo
deriving DecidableEq, Repr

structure LoopReport where
  pattern : LoopPattern
  commitCount : Nat
  windowMs : Option Int
  stack : Option String
  suspects : List String
  triggeringCommit : Option FiberSnapshot
  forcedCommit : FiberSnapshot
  userFrame : Option SourceInfo
  timestamp : Int
deriving DecidableEq, Repr

/-- The detector configuration after `createDetector` applied its defaults.
`onFlushSet` / `onLoopSet` record whether the respective callbacks were
provided; `breakSync` / `breakAsync` are the result of `resolveBreakConfig`
on the `breakOnLoop` option.  The numeric `sampleRate` only ever appears in
the test `Math.random() < sampleRate`, whose outcome each commit event
carries. -/
structure Config where
  onFlushSet : Bool
  onLoopSet : Bool
  maxCommitsPerTask : Nat
  maxCommitsPerWindow : Nat
  windowMs : Int
  breakSync : Bool
  breakAsync : Bool
deriving DecidableEq, Repr

/-- The `DetectorState` record of src/detector.ts.  `windowTimestamps` is the
fixed-capacity ring buffer (`new Array(maxCommitsPerWindow)`, modelled with
zero-initialised slots — a slot is only ever read after the buffer has
wrapped, i.e. after every slot has been written). -/
structure DetectorState where
  commitInCurrentTask : Bool
  taskBoundaryPending : Bool
  lastCommitTime : Int
  lastCommitSnapshot : Option FiberSnapshot
  commitCountInCurrentTask : Nat
  syncLoopFiredThisTask : Bool
  flushReportsThisTask : Nat
  windowTimestamps : List Int
  windowWritePos : Nat
  windowFilled : Bool
  lastAsyncLoopFireTime : Int
  lastCommitStack : Option String
  disposed : Bool
deriving DecidableEq, Repr

def initialState (cfg : Config) : DetectorState where
  commitInCurrentTask := false
  taskBoundaryPending := false
  lastCommitTime := 0
  lastCommitSnapshot := none
  commitCountInCurrentTask := 0
  syncLoopFiredThisTask := false
  flushReportsThisTask := 0
  windowTimestamps := List.replicate cfg.maxCommitsPerWindow 0
  windowWritePos := 0
  windowFilled := false
  lastAsyncLoopFireTime := 0
  lastCommitStack := none
  disposed := false

/-- The environment-supplied values consumed during one `handleCommit` call:
the `Date.now()` reading, the outcome of `Math.random() < sampleRate`, the
string `new Error().stack` produces at the eager capture site, and the one it
produces inside `buildLoopReport` should a loop fire. -/
structure CommitEvent where
  now : Int
  sampled : Bool
  stack : Option String
  loopStack : Option String
deriving DecidableEq, Repr

/-- A deferred callback created by `handleLoopDetection`: either the
`setTimeout(..., 0)` closure that unfreezes the root and then delivers the
report, or the `queueMicrotask` closure that only delivers the report. -/
inductive Scheduled where
  | unfreezeAndReport (report : LoopReport)
  | microtaskReport (report : LoopReport)
deriving DecidableEq, Repr

def Scheduled.loopReport : Scheduled → LoopReport
  | .unfreezeAndReport r => r
  | .microtaskReport r => r

/-- Reading `root.pendingLanes` (through the frozen accessor when installed). -/
def readPendingLanes (root : RootState) : Nat :=
  if root.frozen then NoLane else root.pendingLanes

def readCallbackPriority (root : RootState) : Nat :=
  if root.frozen then SyncLane else root.callbackPriority

def readCallbackNode (root : RootState) : Option Nat :=
  if root.frozen then none else root.callbackNode

/-- src/detector.ts `freezeRootLanes`: capture the current values (read through
whatever accessors are installed) into `__frozenOriginals` and install accessor
overrides that read as `NoLane` / `SyncLane` / `null` and swallow writes. -/
def freezeRootLanes (root : RootState) : RootState :=
  { root with
      frozen := true,
      frozenOriginals := some
        ⟨readPendingLanes root, readCallbackPriority root, readCallbackNode root⟩ }

/-- Writing `root.pendingLanes = v`: discarded while the overrides are
installed. -/
def writePendingLanes (root : RootState) (v : Nat) : RootState :=
  if root.frozen then root else { root with pendingLanes := v }

def writeCallbackPriority (root : RootState) (v : Nat) : RootState :=
  if root.frozen then root else { root with callbackPriority := v }

def writeCallbackNode (root : RootState) (v : Option Nat) : RootState :=
  if root.frozen then root else { root with callbackNode := v }

/-- src/detector.ts `unfreezeRootLanes`: delete the accessor overrides, reset
`pendingLanes` and `callbackPriority` to `NoLane` (deliberately not the
pre-freeze values), restore `callbackNode` from the captured originals, and
drop `__frozenOriginals`. -/
def unfreezeRootLanes (root : RootState) : RootState :=
  { root with
      frozen := false,
      pendingLanes := NoLane,
      callbackPriority := NoLane,
      callbackNode := (root.frozenOriginals.map (·.callbackNode)).getD none,
      frozenOriginals := none }

/-- src/detector.ts `getComponentNames`: layout-effect owners (truthy names,
no dedup), then update owners (truthy and not already present). -/
def getComponentNames (snapshot : FiberSnapshot) : List String :=
  let names := snapshot.withLayoutEffects.foldl
    (fun acc f =>
      match f.ownerName with
      | some n => if n = "" then acc else acc ++ [n]
      | none => acc) []
  snapshot.withUpdates.foldl
    (fun acc f =>
      match f.ownerName with
      | some n => if n = "" ∨ acc.contains n then acc else acc ++ [n]
      | none => acc) names

/-- src/detector.ts `buildLoopReport`.  The state passed in is the detector
state at the call site (the loop-check mutations have already been applied;
they do not touch `lastCommitSnapshot`). -/
def buildLoopReport (s : DetectorState) (root : RootState) (pattern : LoopPattern)
    (commitCount : Nat) (windowDuration : Option Int) (ev : CommitEvent) : LoopReport :=
  let triggeringSnapshot := s.lastCommitSnapshot
  let forcedSnapshot := Walker.snapshotCommitFibers root
  let stack := ev.loopStack
  let userFrame := parseUserFrame stack
  let suspects := getComponentNames forcedSnapshot
  { pattern := pattern,
    commitCount := commitCount,
    windowMs := windowDuration,
    stack := stack,
    suspects := suspects,
    triggeringCommit := triggeringSnapshot,
    forcedCommit := forcedSnapshot,
    userFrame := userFrame,
    timestamp := ev.now }

/-- src/detector.ts `handleLoopDetection`: build the report; in break mode
freeze the root and schedule the macrotask that unfreezes and delivers, in
report-only mode schedule a microtask that just delivers. -/
def handleLoopDetection (cfg : Config) (s : DetectorState) (root : RootState)
    (pattern : LoopPattern) (commitCount : Nat) (windowDuration : Option Int)
    (ev : CommitEvent) : RootState × Scheduled :=
  let report := buildLoopReport s root pattern commitCount windowDuration ev
  let shouldBreak := match pattern with
    | LoopPattern.sync => cfg.breakSync
    | LoopPattern.async => cfg.breakAsync
  if shouldBreak then (freezeRootLanes root, Scheduled.unfreezeAndReport report)
  else (root, Scheduled.microtaskReport report)

/-- Running one deferred callback.  The closures capture `root`, `report` and
the `onLoop` callback; neither closure consults `state.disposed`, so the
detector state passes through unchanged and delivery happens regardless of
disposal.  The returned list holds the reports delivered to `onLoop`. -/
def runScheduled (cfg : Config) (s : DetectorState) (root : RootState) :
    Scheduled → DetectorState × RootState × List LoopReport
  | Scheduled.unfreezeAndReport r =>
      (s, unfreezeRootLanes root, if cfg.onLoopSet then [r] else [])
  | Scheduled.microtaskReport r =>
      (s, root, if cfg.onLoopSet then [r] else [])

/-- The `channel.port1.onmessage` task-boundary handler. -/
def onTaskBoundary (s : DetectorState) : DetectorState :=
  if s.disposed then s
  else
    { s with
        commitInCurrentTask := false,
        taskBoundaryPending := false,
        commitCountInCurrentTask := 0,
        syncLoopFiredThisTask := false,
        flushReportsThisTask := 0,
        lastCommitStack := none }

/-- src/detector.ts `dispose`. -/
def dispose (s : DetectorState) : DetectorState :=
  { s with disposed := true }

/-- The `MAX_FLUSH_REPORTS_PER_TASK` constant local to `handleCommit`. -/
def MAX_FLUSH_REPORTS_PER_TASK : Nat := 3

/-- The `setStateLocation` expression of the flush report:
`(withLayoutEffects.find(f => f.effectSource) ?? withLayoutEffects[0])?.source ?? null`. -/
def pickSetStateLocation (l : List DetailedFiberInfo) : Option SourceInfo :=
  match (l.find? fun f => truthyStr f.effectSource) with
  | some f => f.source
  | none =>
    match l.head? with
    | some f => f.source
    | none => none

/-- The result of one `handleCommit` call: the updated detector state, the
(possibly frozen) root, the flush reports delivered synchronously to
`onFlush`, and the deferred callbacks scheduled by loop detection. -/
structure StepResult where
  state : DetectorState
  root : RootState
  flushes : List FlushReport
  scheduled : List Scheduled

/-- The sync-loop branch of `handleCommit` (counter exceeded the per-task
threshold and the per-task guard has not fired): set the guard, reset the
async ring buffer, stamp the async cooldown, fire, and return early. -/
def syncFirePath (cfg : Config) (s : DetectorState) (root : RootState)
    (ev : CommitEvent) : StepResult :=
  let count1 := s.commitCountInCurrentTask + 1
  let s1 := { s with
      commitCountInCurrentTask := count1,
      syncLoopFiredThisTask := true,
      windowFilled := false,
      windowWritePos := 0,
      lastAsyncLoopFireTime := ev.now }
  let fired := handleLoopDetection cfg s1 root LoopPattern.sync count1 none ev
  ⟨s1, fired.1, [], [fired.2]⟩

/-- The async sliding-window check of `handleCommit` (the counter has already
been incremented in `s`): only runs once the ring buffer has wrapped and the
sync guard has not fired; fires when the span from the oldest retained
timestamp is inside the window and the cooldown since the last async firing
has elapsed. -/
def asyncPhase (cfg : Config) (s : DetectorState) (root : RootState)
    (ev : CommitEvent) : DetectorState × RootState × Option Scheduled :=
  if s.windowFilled = true ∧ s.syncLoopFiredThisTask = false then
    let oldest := s.windowTimestamps.getD s.windowWritePos 0
    let span := ev.now - oldest
    if span < cfg.windowMs ∧ ev.now - s.lastAsyncLoopFireTime > cfg.windowMs then
      let s2 := { s with lastAsyncLoopFireTime := ev.now }
      let fired := handleLoopDetection cfg s2 root LoopPattern.async
          (cfg.maxCommitsPerWindow + 1) (some span) ev
      (s2, fired.1, some fired.2)
    else (s, root, none)
  else (s, root, none)

/-- Recording the current commit's timestamp in the ring buffer (runs whether
or not the async strategy fired). -/
def recordInWindow (cfg : Config) (s : DetectorState) (now : Int) : DetectorState :=
  let pos1 := (s.windowWritePos + 1) % cfg.maxCommitsPerWindow
  { s with
      windowTimestamps := s.windowTimestamps.set s.windowWritePos now,
      windowWritePos := pos1,
      windowFilled := s.windowFilled || decide (pos1 = 0) }

/-- The forced-flush report block of `handleCommit`.  `s.commitInCurrentTask`
is `isForcedFlush`; `commitStack` is the eagerly captured stack (already
`none` when no `onFlush` callback is configured). -/
def flushPhase (cfg : Config) (s : DetectorState) (currentSnapshot : FiberSnapshot)
    (commitStack : Option String) (ev : CommitEvent) : DetectorState × List FlushReport :=
  if s.commitInCurrentTask = true ∧ cfg.onFlushSet = true
      ∧ s.syncLoopFiredThisTask = false
      ∧ s.flushReportsThisTask < MAX_FLUSH_REPORTS_PER_TASK
      ∧ ev.sampled = true then
    let triggeringSnapshot := s.lastCommitSnapshot.getD currentSnapshot
    let classification := classifyPattern triggeringSnapshot
    let patternEvidence : Option (FlushPattern × String) :=
      if classification.pattern = FlushPattern.setStateOutsideReact then
        if hasFlushSyncInStack commitStack || hasFlushSyncInStack s.lastCommitStack then
          some (FlushPattern.flushSync, "flushSync caused synchronous re-render")
        else none
      else some (classification.pattern, classification.evidence)
    match patternEvidence with
    | some (reportPattern, reportEvidence) =>
      let userFrame :=
        match parseUserFrame commitStack with
        | some f => some f
        | none => parseUserFrame s.lastCommitStack
      let report : FlushReport :=
        { timestamp := ev.now,
          pattern := reportPattern,
          evidence := reportEvidence,
          suspects := classification.suspects,
          flushedEffectsCount := triggeringSnapshot.withLayoutEffects.length,
          blockingDurationMs := ev.now - s.lastCommitTime,
          setStateLocation := pickSetStateLocation triggeringSnapshot.withLayoutEffects,
          userFrame := userFrame }
      ({ s with flushReportsThisTask := s.flushReportsThisTask + 1 }, [report])
    | none => (s, [])
  else (s, [])

/-- The non-early-return path of `handleCommit`: async check, ring-buffer
write, forced-flush attribution, then the end-of-commit state updates
(including the task-boundary scheduling, which leaves `taskBoundaryPending`
set). -/
def normalPath (cfg : Config) (s : DetectorState) (root : RootState)
    (ev : CommitEvent) : StepResult :=
  let commitStack := if cfg.onFlushSet then ev.stack else none
  let s1 := { s with commitCountInCurrentTask := s.commitCountInCurrentTask + 1 }
  let a := asyncPhase cfg s1 root ev
  let s2 := a.1
  let root1 := a.2.1
  let s3 := recordInWindow cfg s2 ev.now
  let currentSnapshot := Walker.snapshotCommitFibers root1
  let f := flushPhase cfg s3 currentSnapshot commitStack ev
  let s4 := f.1
  let s5 := { s4 with
      commitInCurrentTask := true,
      lastCommitTime := ev.now,
      lastCommitSnapshot := some currentSnapshot,
      lastCommitStack := commitStack,
      taskBoundaryPending := true }
  ⟨s5, root1, f.2, match a.2.2 with | some t => [t] | none => []⟩

/-- src/detector.ts `handleCommit`. -/
def handleCommit (cfg : Config) (s : DetectorState) (root : RootState)
    (ev : CommitEvent) : StepResult :=
  if s.disposed = true then ⟨s, root, [], []⟩
  else if s.commitCountInCurrentTask + 1 > cfg.maxCommitsPerTask
      ∧ s.syncLoopFiredThisTask = false then
    syncFirePath cfg s root ev
  else normalPath cfg s root ev

/-- Feeding a sequence of commits with no intervening task boundary. -/
structure RunResult where
  state : DetectorState
  root : RootState
  flushes : List FlushReport
  scheduled : List Scheduled

def runCommits (cfg : Config) : List CommitEvent → DetectorState → RootState → RunResult
  | [], s, root => ⟨s, root, [], []⟩
  | ev :: rest, s, root =>
    let step := handleCommit cfg s root ev
    let r := runCommits cfg rest step.state step.root
    ⟨r.state, r.root, step.flushes ++ r.flushes, step.scheduled ++ r.scheduled⟩

/-- The scheduled loop firings with a given pattern. -/
def firingsOf (pattern : LoopPattern) (l : List Scheduled) : List Scheduled :=
  l.filter fun t => t.loopReport.pattern = pattern

end FlushObserver


namespace FlushObserver

/-! ## Concrete fixtures used by witnesses and counterexamples

The fixtures mirror the mock trees of the repository's own test suites
(`makeFiber` / `makeRoot` / `makeLayoutEffectRoot`). -/

/-- A root whose `current` fiber is absent: every commit snapshot is empty. -/
def bareRoot : RootState := ⟨FiberLink.null, 0, 0, none, false, none⟩

/-- A function-component fiber carrying `LayoutMask` flags (a layout effect). -/
def layoutChildFiber : Fiber :=
  Fiber.mk 0 36 0 0 (FiberType.funcType none (some "Mock") none) none none none
    FiberLink.null FiberLink.null FiberLink.null FiberLink.null

/-- The root fiber of `makeLayoutEffectRoot`: a plain component whose child has
layout-effect flags. -/
def layoutRootFiber : Fiber :=
  Fiber.mk 0 0 0 36 (FiberType.funcType none (some "Mock") none) none none none
    FiberLink.null FiberLink.null (FiberLink.ref layoutChildFiber) FiberLink.null

/-- A root whose snapshot classifies as a layout-effect pattern. -/
def layoutRoot : RootState := ⟨FiberLink.ref layoutRootFiber, 0, 0, none, false, none⟩

/-- A host-element fiber (`tag` 5, DOM node) carrying `LayoutMask` flags. -/
def hostLayoutFiber : Fiber :=
  Fiber.mk 5 36 0 0 (FiberType.strType "button") none none none
    FiberLink.null FiberLink.null FiberLink.null FiberLink.null

/-- A component fiber with `LayoutMask` flags whose child is the flagged host
element. -/
def compWithHostFiber : Fiber :=
  Fiber.mk 0 36 0 0 (FiberType.funcType none (some "MyComp") none) none none none
    FiberLink.null FiberLink.null (FiberLink.ref hostLayoutFiber) FiberLink.null

/-- A component fiber whose update queue holds a single stale layout effect:
the tag has `HookLayout` (4) but not `HookHasEffect` (1). -/
def staleEffectFiber : Fiber :=
  Fiber.mk 0 36 0 0 (FiberType.funcType none (some "MyComp") none)
    (some ⟨[⟨4, some "stale-layout-effect-body"⟩]⟩) none none
    FiberLink.null FiberLink.null FiberLink.null FiberLink.null

/-- A commit event at time `t`, sampled, with no captured stacks. -/
def plainEv (t : Int) : CommitEvent := ⟨t, true, none, none⟩

/-- An arbitrary concrete loop report, used to exercise the deferred
callbacks. -/
def sampleLoopReport : LoopReport :=
  ⟨LoopPattern.sync, 51, none, none, [], none, emptySnapshot, none, 17⟩

/-! ## Helper lemmas about the detector's phases -/

lemma freezeRootLanes_current (root : RootState) :
    (freezeRootLanes root).current = root.current := rfl

lemma snapshotCommitFibers_congr {r1 r2 : RootState} (h : r1.current = r2.current) :
    Walker.snapshotCommitFibers r1 = Walker.snapshotCommitFibers r2 := by
  unfold Walker.snapshotCommitFibers
  rw [h]

lemma handleLoopDetection_report (cfg : Config) (s : DetectorState) (root : RootState)
    (p : LoopPattern) (c : Nat) (w : Option Int) (ev : CommitEvent) :
    (handleLoopDetection cfg s root p c w ev).2.loopReport = buildLoopReport s root p c w ev := by
  unfold handleLoopDetection
  dsimp only
  split <;> rfl

lemma handleLoopDetection_root_current (cfg : Config) (s : DetectorState) (root : RootState)
    (p : LoopPattern) (c : Nat) (w : Option Int) (ev : CommitEvent) :
    (handleLoopDetection cfg s root p c w ev).1.current = root.current := by
  unfold handleLoopDetection
  dsimp only
  split <;> rfl

lemma buildLoopReport_pattern (s : DetectorState) (root : RootState) (p : LoopPattern)
    (c : Nat) (w : Option Int) (ev : CommitEvent) :
    (buildLoopReport s root p c w ev).pattern = p := rfl

lemma buildLoopReport_commitCount (s : DetectorState) (root : RootState) (p : LoopPattern)
    (c : Nat) (w : Option Int) (ev : CommitEvent) :
    (buildLoopReport s root p c w ev).commitCount = c := rfl

lemma buildLoopReport_windowMs (s : DetectorState) (root : RootState) (p : LoopPattern)
    (c : Nat) (w : Option Int) (ev : CommitEvent) :
    (buildLoopReport s root p c w ev).windowMs = w := rfl

/-- The condition under which the sliding-window strategy fires (the guards of
the two nested `if`s of the async check, on the state after the counter
bump). -/
def asyncFireCond (cfg : Config) (s : DetectorState) (ev : CommitEvent) : Prop :=
  s.windowFilled = true ∧ s.syncLoopFiredThisTask = false
    ∧ ev.now - s.windowTimestamps.getD s.windowWritePos 0 < cfg.windowMs
    ∧ ev.now - s.lastAsyncLoopFireTime > cfg.windowMs

lemma asyncPhase_no_fire {cfg : Config} {s : DetectorState} {ev : CommitEvent}
    (root : RootState) (h : ¬ asyncFireCond cfg s ev) :
    asyncPhase cfg s root ev = (s, root, none) := by
  unfold asyncPhase
  dsimp only
  split
  case isTrue h1 =>
    split
    case isTrue h2 => exact absurd ⟨h1.1, h1.2, h2.1, h2.2⟩ h
    case isFalse h2 => rfl
  case isFalse h1 => rfl

lemma asyncPhase_fire {cfg : Config} {s : DetectorState} {ev : CommitEvent}
    (root : RootState) (h : asyncFireCond cfg s ev) :
    asyncPhase cfg s root ev =
      ({ s with lastAsyncLoopFireTime := ev.now },
        (handleLoopDetection cfg { s with lastAsyncLoopFireTime := ev.now } root
          LoopPattern.async (cfg.maxCommitsPerWindow + 1)
          (some (ev.now - s.windowTimestamps.getD s.windowWritePos 0)) ev).1,
        some (handleLoopDetection cfg { s with lastAsyncLoopFireTime := ev.now } root
          LoopPattern.async (cfg.maxCommitsPerWindow + 1)
          (some (ev.now - s.windowTimestamps.getD s.windowWritePos 0)) ev).2) := by
  obtain ⟨h1, h2, h3, h4⟩ := h
  unfold asyncPhase
  dsimp only
  rw [if_pos ⟨h1, h2⟩, if_pos ⟨h3, h4⟩]

end FlushObserver

namespace FlushObserver

/-! ## flushPhase characterizations -/

lemma flushPhase_fst_cases (cfg : Config) (s : DetectorState) (snap : FiberSnapshot)
    (cst : Option String) (ev : CommitEvent) :
    (flushPhase cfg s snap cst ev).1 = s
    ∨ (flushPhase cfg s snap cst ev).1
        = { s with flushReportsThisTask := s.flushReportsThisTask + 1 } := by
  unfold flushPhase
  dsimp only
  split
  · split
    · right; rfl
    · left; rfl
  · left; rfl

lemma flushPhase_no_guard {cfg : Config} {s : DetectorState} {ev : CommitEvent}
    (snap : FiberSnapshot) (cst : Option String)
    (h : ¬ (s.commitInCurrentTask = true ∧ cfg.onFlushSet = true
        ∧ s.syncLoopFiredThisTask = false
        ∧ s.flushReportsThisTask < MAX_FLUSH_REPORTS_PER_TASK
        ∧ ev.sampled = true)) :
    flushPhase cfg s snap cst ev = (s, []) := by
  unfold flushPhase
  rw [if_neg h]

lemma flushPhase_emit {cfg : Config} {s : DetectorState} {ev : CommitEvent}
    (snap : FiberSnapshot) (cst : Option String)
    (hg : s.commitInCurrentTask = true ∧ cfg.onFlushSet = true
        ∧ s.syncLoopFiredThisTask = false
        ∧ s.flushReportsThisTask < MAX_FLUSH_REPORTS_PER_TASK
        ∧ ev.sampled = true)
    (hp : (classifyPattern (s.lastCommitSnapshot.getD snap)).pattern
        ≠ FlushPattern.setStateOutsideReact) :
    flushPhase cfg s snap cst ev =
      ({ s with flushReportsThisTask := s.flushReportsThisTask + 1 },
        [{ timestamp := ev.now,
           pattern := (classifyPattern (s.lastCommitSnapshot.getD snap)).pattern,
           evidence := (classifyPattern (s.lastCommitSnapshot.getD snap)).evidence,
           suspects := (classifyPattern (s.lastCommitSnapshot.getD snap)).suspects,
           flushedEffectsCount := (s.lastCommitSnapshot.getD snap).withLayoutEffects.length,
           blockingDurationMs := ev.now - s.lastCommitTime,
           setStateLocation :=
             pickSetStateLocation (s.lastCommitSnapshot.getD snap).withLayoutEffects,
           userFrame :=
             match parseUserFrame cst with
             | some f => some f
             | none => parseUserFrame s.lastCommitStack }]) := by
  unfold flushPhase
  rw [if_pos hg]
  dsimp only
  rw [if_neg hp]

lemma flushPhase_fsync_yes {cfg : Config} {s : DetectorState} {ev : CommitEvent}
    (snap : FiberSnapshot) (cst : Option String)
    (hg : s.commitInCurrentTask = true ∧ cfg.onFlushSet = true
        ∧ s.syncLoopFiredThisTask = false
        ∧ s.flushReportsThisTask < MAX_FLUSH_REPORTS_PER_TASK
        ∧ ev.sampled = true)
    (hp : (classifyPattern (s.lastCommitSnapshot.getD snap)).pattern
        = FlushPattern.setStateOutsideReact)
    (hs : (hasFlushSyncInStack cst || hasFlushSyncInStack s.lastCommitStack) = true) :
    flushPhase cfg s snap cst ev =
      ({ s with flushReportsThisTask := s.flushReportsThisTask + 1 },
        [{ timestamp := ev.now,
           pattern := FlushPattern.flushSync,
           evidence := "flushSync caused synchronous re-render",
           suspects := (classifyPattern (s.lastCommitSnapshot.getD snap)).suspects,
           flushedEffectsCount := (s.lastCommitSnapshot.getD snap).withLayoutEffects.length,
           blockingDurationMs := ev.now - s.lastCommitTime,
           setStateLocation :=
             pickSetStateLocation (s.lastCommitSnapshot.getD snap).withLayoutEffects,
           userFrame :=
             match parseUserFrame cst with
             | some f => some f
             | none => parseUserFrame s.lastCommitStack }]) := by
  unfold flushPhase
  rw [if_pos hg]
  dsimp only
  rw [if_pos hp, if_pos hs]

lemma flushPhase_fsync_no {cfg : Config} {s : DetectorState} {ev : CommitEvent}
    (snap : FiberSnapshot) (cst : Option String)
    (hg : s.commitInCurrentTask = true ∧ cfg.onFlushSet = true
        ∧ s.syncLoopFiredThisTask = false
        ∧ s.flushReportsThisTask < MAX_FLUSH_REPORTS_PER_TASK
        ∧ ev.sampled = true)
    (hp : (classifyPattern (s.lastCommitSnapshot.getD snap)).pattern
        = FlushPattern.setStateOutsideReact)
    (hs : (hasFlushSyncInStack cst || hasFlushSyncInStack s.lastCommitStack) = false) :
    flushPhase cfg s snap cst ev = (s, []) := by
  unfold flushPhase
  rw [if_pos hg]
  dsimp only
  rw [if_pos hp, if_neg (by rw [hs]; exact Bool.false_ne_true)]

end FlushObserver

namespace FlushObserver

/-! ## Claim C8: dispose is idempotent and makes everything a no-op -/

/-- C8: `dispose()` is idempotent, and after `dispose()` every subsequent
`handleCommit` call is a no-op — it emits no FlushReport, schedules no loop
firing, and returns the detector state (and root) unchanged; the task-boundary
channel handler likewise leaves the state untouched after disposal. -/
theorem claim_C8_dispose_noop (cfg : Config) (s : DetectorState) (root : RootState)
    (ev : CommitEvent) :
    handleCommit cfg (dispose s) root ev = ⟨dispose s, root, [], []⟩
    ∧ onTaskBoundary (dispose s) = dispose s
    ∧ dispose (dispose s) = dispose s := by
  refine ⟨?_, ?_, rfl⟩
  · unfold handleCommit
    rw [if_pos (show (dispose s).disposed = true from rfl)]
  · unfold onTaskBoundary
    rw [if_pos (show (dispose s).disposed = true from rfl)]

/-! ## Claim C10: the deferred unfreeze callback ignores disposal -/

/-- C10 (implicit): the macrotask scheduled by a break-mode loop firing — the
`setTimeout` closure that unfreezes the root and invokes `onLoop` — never
consults the `disposed` flag.  Run after `dispose()`, it still unfreezes the
root and still delivers the LoopReport to the caller. -/
theorem claim_C10_unfreeze_ignores_dispose (cfg : Config) (s : DetectorState)
    (root : RootState) (rep : LoopReport) (h : cfg.onLoopSet = true) :
    runScheduled cfg (dispose s) root (Scheduled.unfreezeAndReport rep)
      = (dispose s, unfreezeRootLanes root, [rep])
    ∧ (unfreezeRootLanes root).frozen = false := by
  refine ⟨?_, rfl⟩
  simp [runScheduled, h]

/-- Configuration fixture: callbacks installed, default thresholds, break mode
for both strategies. -/
def defaultCfg : Config := ⟨true, true, 50, 50, 1000, true, true⟩

/-- Witness for C10 at a concrete disposed detector and a concrete frozen
root. -/
theorem claim_C10_witness :
    runScheduled defaultCfg (dispose (initialState defaultCfg)) (freezeRootLanes layoutRoot)
        (Scheduled.unfreezeAndReport sampleLoopReport)
      = (dispose (initialState defaultCfg), unfreezeRootLanes (freezeRootLanes layoutRoot),
          [sampleLoopReport])
    ∧ (unfreezeRootLanes (freezeRootLanes layoutRoot)).frozen = false :=
  claim_C10_unfreeze_ignores_dispose defaultCfg (initialState defaultCfg)
    (freezeRootLanes layoutRoot) sampleLoopReport rfl

/-! ## Claim C7: freeze/unfreeze semantics (corrected) -/

/-- A root with distinctive live values in all three scheduling slots. -/
def busyRoot : RootState := ⟨FiberLink.null, 5, 7, some 3, false, none⟩

/-- C7 counterexample: the claim says the freeze accessors return
neutral/empty values on read (the claim itself identifies the neutral value of
the lane fields as 0), but the frozen `callbackPriority` getter returns
`SyncLane` (1), not the neutral value `NoLane` (0). -/
theorem claim_C7_counterexample :
    readCallbackPriority (freezeRootLanes busyRoot) = SyncLane
    ∧ readCallbackPriority (freezeRootLanes busyRoot) ≠ NoLane := by
  constructor
  · rfl
  · decide

/-- C7 (amended): when a loop fires in break mode the root is frozen and the
unfreeze-and-report macrotask is scheduled; while frozen, `pendingLanes` reads
as `NoLane` (0), `callbackNode` as `null`, and `callbackPriority` as
`SyncLane` (1) — not a neutral value — and writes to all three are discarded;
running the scheduled macrotask removes the overrides, resets `pendingLanes`
and `callbackPriority` to 0 regardless of their pre-freeze values, restores
`callbackNode` to its originally captured value, and delivers the LoopReport
at that same point; afterwards writes succeed again.  In report-only mode no
freeze happens and the report is delivered via a microtask. -/
theorem claim_C7_freeze_unfreeze (cfg : Config) (s : DetectorState) (root : RootState)
    (c : Nat) (w : Option Int) (ev : CommitEvent) (hfr : root.frozen = false) :
    (cfg.breakSync = true →
      handleLoopDetection cfg s root LoopPattern.sync c w ev
        = (freezeRootLanes root,
           Scheduled.unfreezeAndReport (buildLoopReport s root LoopPattern.sync c w ev)))
    ∧ (cfg.breakSync = false →
      handleLoopDetection cfg s root LoopPattern.sync c w ev
        = (root, Scheduled.microtaskReport (buildLoopReport s root LoopPattern.sync c w ev)))
    ∧ readPendingLanes (freezeRootLanes root) = NoLane
    ∧ readCallbackPriority (freezeRootLanes root) = SyncLane
    ∧ readCallbackNode (freezeRootLanes root) = none
    ∧ (∀ v, writePendingLanes (freezeRootLanes root) v = freezeRootLanes root)
    ∧ (∀ v, writeCallbackPriority (freezeRootLanes root) v = freezeRootLanes root)
    ∧ (∀ v, writeCallbackNode (freezeRootLanes root) v = freezeRootLanes root)
    ∧ (unfreezeRootLanes (freezeRootLanes root)).pendingLanes = NoLane
    ∧ (unfreezeRootLanes (freezeRootLanes root)).callbackPriority = NoLane
    ∧ (unfreezeRootLanes (freezeRootLanes root)).callbackNode = root.callbackNode
    ∧ (unfreezeRootLanes (freezeRootLanes root)).frozen = false
    ∧ (∀ rep, runScheduled cfg s (freezeRootLanes root) (Scheduled.unfreezeAndReport rep)
        = (s, unfreezeRootLanes (freezeRootLanes root), if cfg.onLoopSet then [rep] else []))
    ∧ (∀ rep, runScheduled cfg s root (Scheduled.microtaskReport rep)
        = (s, root, if cfg.onLoopSet then [rep] else []))
    ∧ (∀ v, (writePendingLanes (unfreezeRootLanes (freezeRootLanes root)) v).pendingLanes = v)
    ∧ (∀ v, (writeCallbackPriority (unfreezeRootLanes (freezeRootLanes root))
          v).callbackPriority = v)
    ∧ (∀ v, (writeCallbackNode (unfreezeRootLanes (freezeRootLanes root)) v).callbackNode = v) := by
  refine ⟨?_, ?_, rfl, rfl, rfl, fun v => rfl, fun v => rfl, fun v => rfl,
    rfl, rfl, ?_, rfl, fun rep => rfl, fun rep => rfl, fun v => rfl, fun v => rfl, fun v => rfl⟩
  · intro hb
    unfold handleLoopDetection
    dsimp only
    rw [if_pos hb]
  · intro hb
    unfold handleLoopDetection
    dsimp only
    rw [if_neg (by rw [hb]; exact Bool.false_ne_true)]
  · unfold unfreezeRootLanes freezeRootLanes readCallbackNode
    dsimp only
    rw [hfr]
    rfl

/-- Witness for C7 (amended) at the concrete root `busyRoot` (whose pre-freeze
values 5 / 7 / 3 differ from the post-unfreeze values, showing the deliberate
non-restoration). -/
theorem claim_C7_witness :
    readPendingLanes (freezeRootLanes busyRoot) = NoLane
    ∧ (unfreezeRootLanes (freezeRootLanes busyRoot)).pendingLanes = NoLane
    ∧ (unfreezeRootLanes (freezeRootLanes busyRoot)).callbackPriority = NoLane
    ∧ (unfreezeRootLanes (freezeRootLanes busyRoot)).callbackNode = busyRoot.callbackNode
    ∧ runScheduled defaultCfg (initialState defaultCfg) (freezeRootLanes busyRoot)
        (Scheduled.unfreezeAndReport sampleLoopReport)
      = (initialState defaultCfg, unfreezeRootLanes (freezeRootLanes busyRoot),
         [sampleLoopReport]) := by
  obtain ⟨_, _, h3, _, _, _, _, _, h9, h10, h11, _, h13, _⟩ :=
    claim_C7_freeze_unfreeze defaultCfg (initialState defaultCfg) busyRoot 0 none
      (plainEv 0) rfl
  exact ⟨h3, h9, h10, h11, by rw [h13 sampleLoopReport]; rfl⟩

end FlushObserver

namespace FlushObserver

/-! ## Claim C6: classifier priority order -/

/-- C6: `classifyPattern` is a pure function of one snapshot, first match
wins: a non-empty `withSuspense` list yields the lazy-in-render pattern;
otherwise a non-empty `withLayoutEffects` list yields the layout-effect
pattern, with suspects restricted to the entries that have a (truthy) decoded
effect-body source whenever at least one such entry exists; otherwise the
outside-batching pattern with an empty suspects list.  Adding a layout-effect
entry to a suspense-free snapshot switches the classification to the
layout-effect pattern. -/
theorem claim_C6_classifier_priority (s : FiberSnapshot) :
    (s.withSuspense ≠ [] →
      classifyPattern s =
        { pattern := FlushPattern.lazyInRender,
          suspects := s.withSuspense.map (·.toFiberInfo),
          evidence := "Suspense boundary captured during commit" })
    ∧ (s.withSuspense = [] → s.withLayoutEffects ≠ [] →
      classifyPattern s =
        { pattern := FlushPattern.setStateInLayoutEffect,
          suspects := (if (s.withLayoutEffects.filter fun f => truthyStr f.effectSource) ≠ []
                       then s.withLayoutEffects.filter fun f => truthyStr f.effectSource
                       else s.withLayoutEffects).map (·.toFiberInfo),
          evidence := "Layout effect triggered state update" })
    ∧ (s.withSuspense = [] → s.withLayoutEffects = [] →
      classifyPattern s =
        { pattern := FlushPattern.setStateOutsideReact,
          suspects := [],
          evidence := "Multiple commits in same task without React batching" })
    ∧ (∀ d : DetailedFiberInfo, s.withSuspense = [] →
      (classifyPattern { s with withLayoutEffects := d :: s.withLayoutEffects }).pattern
        = FlushPattern.setStateInLayoutEffect) := by
  refine ⟨?_, ?_, ?_, ?_⟩
  · intro h
    unfold classifyPattern
    rw [if_pos (List.length_pos.mpr h)]
  · intro h1 h2
    unfold classifyPattern
    rw [if_neg (by simp [h1]), if_pos (List.length_pos.mpr h2)]
    by_cases hf : (s.withLayoutEffects.filter fun f => truthyStr f.effectSource) = []
    · simp [hf]
    · simp [hf, List.length_pos.mpr hf]
  · intro h1 h2
    unfold classifyPattern
    rw [if_neg (by simp [h1]), if_neg (by simp [h2])]
  · intro d h1
    unfold classifyPattern
    rw [if_neg (by simp [h1])]
    dsimp only
    rw [if_pos (by simp)]

/-- An update-pending fiber entry (no layout/suspense data). -/
def updEntry : UpdatesFiberInfo :=
  { componentId := none, tag := 0,
    type := FiberType.funcType none (some "Upd") none, ownerName := some "Upd", lanes := 1 }

/-- A snapshot built purely from update-pending fibers. -/
def updOnlySnapshot : FiberSnapshot := ⟨[], [], [], [updEntry]⟩

/-- A layout-effect entry with no decoded source. -/
def layoutEntry : DetailedFiberInfo :=
  { componentId := none, tag := 0,
    type := FiberType.funcType none (some "Lay") none, ownerName := some "Lay",
    source := none, componentStack := none, effectSource := none }

/-- Witness for C6: the update-only snapshot classifies as outside-batching
with empty suspects, and adding one layout-effect entry flips the
classification to the layout-effect pattern. -/
theorem claim_C6_witness :
    classifyPattern updOnlySnapshot =
      { pattern := FlushPattern.setStateOutsideReact,
        suspects := [],
        evidence := "Multiple commits in same task without React batching" }
    ∧ (classifyPattern
        { updOnlySnapshot with
            withLayoutEffects := layoutEntry :: updOnlySnapshot.withLayoutEffects }).pattern
      = FlushPattern.setStateInLayoutEffect :=
  ⟨(claim_C6_classifier_priority updOnlySnapshot).2.2.1 rfl rfl,
   (claim_C6_classifier_priority updOnlySnapshot).2.2.2 layoutEntry rfl⟩

end FlushObserver

namespace FlushObserver

/-! ## handleCommit branch lemmas -/

lemma handleCommit_sync_fire (cfg : Config) (s : DetectorState) (root : RootState)
    (ev : CommitEvent) (hd : s.disposed = false)
    (hc : s.commitCountInCurrentTask + 1 > cfg.maxCommitsPerTask)
    (hf : s.syncLoopFiredThisTask = false) :
    handleCommit cfg s root ev = syncFirePath cfg s root ev := by
  unfold handleCommit
  rw [if_neg (by simp [hd]), if_pos ⟨hc, hf⟩]

lemma handleCommit_normal (cfg : Config) (s : DetectorState) (root : RootState)
    (ev : CommitEvent) (hd : s.disposed = false)
    (h : ¬ (s.commitCountInCurrentTask + 1 > cfg.maxCommitsPerTask
        ∧ s.syncLoopFiredThisTask = false)) :
    handleCommit cfg s root ev = normalPath cfg s root ev := by
  unfold handleCommit
  rw [if_neg (by simp [hd]), if_neg h]

lemma asyncPhase_fst_cases (cfg : Config) (s : DetectorState) (root : RootState)
    (ev : CommitEvent) :
    (asyncPhase cfg s root ev).1 = s
    ∨ (asyncPhase cfg s root ev).1 = { s with lastAsyncLoopFireTime := ev.now } := by
  by_cases h : asyncFireCond cfg s ev
  · right; rw [asyncPhase_fire root h]
  · left; rw [asyncPhase_no_fire root h]

lemma asyncPhase_root_current (cfg : Config) (s : DetectorState) (root : RootState)
    (ev : CommitEvent) :
    (asyncPhase cfg s root ev).2.1.current = root.current := by
  by_cases h : asyncFireCond cfg s ev
  · rw [asyncPhase_fire root h]
    exact handleLoopDetection_root_current ..
  · rw [asyncPhase_no_fire root h]

lemma asyncPhase_sched_async (cfg : Config) (s : DetectorState) (root : RootState)
    (ev : CommitEvent) (t : Scheduled) (ht : (asyncPhase cfg s root ev).2.2 = some t) :
    t.loopReport.pattern = LoopPattern.async
    ∧ t.loopReport.commitCount = cfg.maxCommitsPerWindow + 1
    ∧ t.loopReport.windowMs
        = some (ev.now - s.windowTimestamps.getD s.windowWritePos 0) := by
  by_cases h : asyncFireCond cfg s ev
  · rw [asyncPhase_fire root h] at ht
    obtain rfl : _ = t := Option.some_injective _ ht
    rw [handleLoopDetection_report]
    exact ⟨rfl, rfl, rfl⟩
  · rw [asyncPhase_no_fire root h] at ht
    exact absurd ht (by simp)

lemma asyncPhase_snd_none (cfg : Config) (s : DetectorState) (root : RootState)
    (ev : CommitEvent) (h : ¬ asyncFireCond cfg s ev) :
    (asyncPhase cfg s root ev).2.2 = none := by
  rw [asyncPhase_no_fire root h]

lemma asyncPhase_snd_some (cfg : Config) (s : DetectorState) (root : RootState)
    (ev : CommitEvent) (h : asyncFireCond cfg s ev) :
    (asyncPhase cfg s root ev).2.2 ≠ none := by
  rw [asyncPhase_fire root h]
  simp

/-! Field-preservation lemmas for the async and ring-buffer phases. -/

lemma asyncPhase_fst_commitInCurrentTask (cfg : Config) (s : DetectorState)
    (root : RootState) (ev : CommitEvent) :
    (asyncPhase cfg s root ev).1.commitInCurrentTask = s.commitInCurrentTask := by
  rcases asyncPhase_fst_cases cfg s root ev with h | h <;> rw [h]

lemma asyncPhase_fst_syncFlag (cfg : Config) (s : DetectorState)
    (root : RootState) (ev : CommitEvent) :
    (asyncPhase cfg s root ev).1.syncLoopFiredThisTask = s.syncLoopFiredThisTask := by
  rcases asyncPhase_fst_cases cfg s root ev with h | h <;> rw [h]

lemma asyncPhase_fst_flushReports (cfg : Config) (s : DetectorState)
    (root : RootState) (ev : CommitEvent) :
    (asyncPhase cfg s root ev).1.flushReportsThisTask = s.flushReportsThisTask := by
  rcases asyncPhase_fst_cases cfg s root ev with h | h <;> rw [h]

lemma asyncPhase_fst_lastCommitSnapshot (cfg : Config) (s : DetectorState)
    (root : RootState) (ev : CommitEvent) :
    (asyncPhase cfg s root ev).1.lastCommitSnapshot = s.lastCommitSnapshot := by
  rcases asyncPhase_fst_cases cfg s root ev with h | h <;> rw [h]

lemma asyncPhase_fst_lastCommitStack (cfg : Config) (s : DetectorState)
    (root : RootState) (ev : CommitEvent) :
    (asyncPhase cfg s root ev).1.lastCommitStack = s.lastCommitStack := by
  rcases asyncPhase_fst_cases cfg s root ev with h | h <;> rw [h]

lemma asyncPhase_fst_lastCommitTime (cfg : Config) (s : DetectorState)
    (root : RootState) (ev : CommitEvent) :
    (asyncPhase cfg s root ev).1.lastCommitTime = s.lastCommitTime := by
  rcases asyncPhase_fst_cases cfg s root ev with h | h <;> rw [h]

lemma asyncPhase_fst_counter (cfg : Config) (s : DetectorState)
    (root : RootState) (ev : CommitEvent) :
    (asyncPhase cfg s root ev).1.commitCountInCurrentTask = s.commitCountInCurrentTask := by
  rcases asyncPhase_fst_cases cfg s root ev with h | h <;> rw [h]

lemma asyncPhase_fst_disposed (cfg : Config) (s : DetectorState)
    (root : RootState) (ev : CommitEvent) :
    (asyncPhase cfg s root ev).1.disposed = s.disposed := by
  rcases asyncPhase_fst_cases cfg s root ev with h | h <;> rw [h]

lemma asyncPhase_fst_windowTimestamps (cfg : Config) (s : DetectorState)
    (root : RootState) (ev : CommitEvent) :
    (asyncPhase cfg s root ev).1.windowTimestamps = s.windowTimestamps := by
  rcases asyncPhase_fst_cases cfg s root ev with h | h <;> rw [h]

lemma asyncPhase_fst_windowWritePos (cfg : Config) (s : DetectorState)
    (root : RootState) (ev : CommitEvent) :
    (asyncPhase cfg s root ev).1.windowWritePos = s.windowWritePos := by
  rcases asyncPhase_fst_cases cfg s root ev with h | h <;> rw [h]

lemma asyncPhase_fst_windowFilled (cfg : Config) (s : DetectorState)
    (root : RootState) (ev : CommitEvent) :
    (asyncPhase cfg s root ev).1.windowFilled = s.windowFilled := by
  rcases asyncPhase_fst_cases cfg s root ev with h | h <;> rw [h]

lemma recordInWindow_fields (cfg : Config) (s : DetectorState) (now : Int) :
    (recordInWindow cfg s now).commitInCurrentTask = s.commitInCurrentTask
    ∧ (recordInWindow cfg s now).syncLoopFiredThisTask = s.syncLoopFiredThisTask
    ∧ (recordInWindow cfg s now).flushReportsThisTask = s.flushReportsThisTask
    ∧ (recordInWindow cfg s now).lastCommitSnapshot = s.lastCommitSnapshot
    ∧ (recordInWindow cfg s now).lastCommitStack = s.lastCommitStack
    ∧ (recordInWindow cfg s now).lastCommitTime = s.lastCommitTime
    ∧ (recordInWindow cfg s now).commitCountInCurrentTask = s.commitCountInCurrentTask
    ∧ (recordInWindow cfg s now).disposed = s.disposed
    ∧ (recordInWindow cfg s now).windowTimestamps
        = s.windowTimestamps.set s.windowWritePos now := by
  unfold recordInWindow
  exact ⟨rfl, rfl, rfl, rfl, rfl, rfl, rfl, rfl, rfl⟩

/-- The flush-report list produced by the non-early-return path, expressed in
terms of the starting state. -/
lemma normalPath_flushes (cfg : Config) (s : DetectorState) (root : RootState)
    (ev : CommitEvent) :
    (normalPath cfg s root ev).flushes =
      (flushPhase cfg
        (recordInWindow cfg
          ((asyncPhase cfg { s with
              commitCountInCurrentTask := s.commitCountInCurrentTask + 1 } root ev).1)
          ev.now)
        (Walker.snapshotCommitFibers root)
        (if cfg.onFlushSet then ev.stack else none) ev).2 := by
  unfold normalPath
  dsimp only
  rw [snapshotCommitFibers_congr (asyncPhase_root_current ..)]

end FlushObserver

namespace FlushObserver

/-! ## Claim C5: the flushSync reclassification of outside-batching cascades -/

/-- C5: when a same-task forced commit's attributed classification is the
outside-normal-batching pattern, the detector inspects both the current
commit's captured call stack and the previous commit's stored one for the
literal `flushSync` function name (word-delimited): if present, the single
emitted FlushReport carries pattern `flushSync` with the flushSync evidence
string; if absent, no FlushReport at all is emitted for that commit. -/
theorem claim_C5_flushsync_reclassification (cfg : Config) (s : DetectorState)
    (root : RootState) (ev : CommitEvent)
    (hd : s.disposed = false) (hforced : s.commitInCurrentTask = true)
    (hof : cfg.onFlushSet = true) (hflag : s.syncLoopFiredThisTask = false)
    (hcap : s.flushReportsThisTask < MAX_FLUSH_REPORTS_PER_TASK)
    (hsam : ev.sampled = true)
    (hcnt : s.commitCountInCurrentTask + 1 ≤ cfg.maxCommitsPerTask)
    (hcls : (classifyPattern
        (s.lastCommitSnapshot.getD (Walker.snapshotCommitFibers root))).pattern
      = FlushPattern.setStateOutsideReact) :
    ((hasFlushSyncInStack ev.stack || hasFlushSyncInStack s.lastCommitStack) = true →
      ∃ rep, (handleCommit cfg s root ev).flushes = [rep]
        ∧ rep.pattern = FlushPattern.flushSync
        ∧ rep.evidence = "flushSync caused synchronous re-render")
    ∧ ((hasFlushSyncInStack ev.stack || hasFlushSyncInStack s.lastCommitStack) = false →
      (handleCommit cfg s root ev).flushes = []) := by
  have hnp := handleCommit_normal cfg s root ev hd
    (by intro hcontra; omega)
  have hG : (recordInWindow cfg
        ((asyncPhase cfg { s with
            commitCountInCurrentTask := s.commitCountInCurrentTask + 1 } root ev).1)
        ev.now).commitInCurrentTask = true
      ∧ cfg.onFlushSet = true
      ∧ (recordInWindow cfg
          ((asyncPhase cfg { s with
              commitCountInCurrentTask := s.commitCountInCurrentTask + 1 } root ev).1)
          ev.now).syncLoopFiredThisTask = false
      ∧ (recordInWindow cfg
          ((asyncPhase cfg { s with
              commitCountInCurrentTask := s.commitCountInCurrentTask + 1 } root ev).1)
          ev.now).flushReportsThisTask < MAX_FLUSH_REPORTS_PER_TASK
      ∧ ev.sampled = true := by
    refine ⟨?_, hof, ?_, ?_, hsam⟩
    · rw [(recordInWindow_fields _ _ _).1, asyncPhase_fst_commitInCurrentTask]
      exact hforced
    · rw [(recordInWindow_fields _ _ _).2.1, asyncPhase_fst_syncFlag]
      exact hflag
    · rw [(recordInWindow_fields _ _ _).2.2.1, asyncPhase_fst_flushReports]
      exact hcap
  have hLs : (recordInWindow cfg
        ((asyncPhase cfg { s with
            commitCountInCurrentTask := s.commitCountInCurrentTask + 1 } root ev).1)
        ev.now).lastCommitSnapshot = s.lastCommitSnapshot := by
    rw [(recordInWindow_fields _ _ _).2.2.2.1, asyncPhase_fst_lastCommitSnapshot]
  have hLst : (recordInWindow cfg
        ((asyncPhase cfg { s with
            commitCountInCurrentTask := s.commitCountInCurrentTask + 1 } root ev).1)
        ev.now).lastCommitStack = s.lastCommitStack := by
    rw [(recordInWindow_fields _ _ _).2.2.2.2.1, asyncPhase_fst_lastCommitStack]
  have hP : (classifyPattern
      ((recordInWindow cfg
          ((asyncPhase cfg { s with
              commitCountInCurrentTask := s.commitCountInCurrentTask + 1 } root ev).1)
          ev.now).lastCommitSnapshot.getD
        (Walker.snapshotCommitFibers root))).pattern
      = FlushPattern.setStateOutsideReact := by
    rw [hLs]; exact hcls
  have hcs : (if cfg.onFlushSet then ev.stack else none) = ev.stack := by
    simp [hof]
  constructor
  · intro hs
    rw [hnp, normalPath_flushes]
    rw [flushPhase_fsync_yes (Walker.snapshotCommitFibers root)
      (if cfg.onFlushSet then ev.stack else none) hG hP (by rw [hcs, hLst]; exact hs)]
    exact ⟨_, rfl, rfl, rfl⟩
  · intro hs
    rw [hnp, normalPath_flushes]
    rw [flushPhase_fsync_no (Walker.snapshotCommitFibers root)
      (if cfg.onFlushSet then ev.stack else none) hG hP (by rw [hcs, hLst]; exact hs)]

end FlushObserver

namespace FlushObserver

/-- Detector state mid-task: one commit already seen (with an empty snapshot),
whose captured call stack contains a `flushSync` frame. -/
def flushSyncState : DetectorState :=
  { initialState defaultCfg with
      commitInCurrentTask := true,
      lastCommitSnapshot := some emptySnapshot,
      lastCommitStack := some "    at flushSync (react-dom.development.js:100:20)" }

/-- Witness for C5 at a concrete forced commit whose previous stack holds a
word-delimited `flushSync` frame. -/
theorem claim_C5_witness :
    ∃ rep, (handleCommit defaultCfg flushSyncState bareRoot (plainEv 10)).flushes = [rep]
      ∧ rep.pattern = FlushPattern.flushSync
      ∧ rep.evidence = "flushSync caused synchronous re-render" :=
  (claim_C5_flushsync_reclassification defaultCfg flushSyncState bareRoot (plainEv 10)
    rfl rfl rfl rfl (by decide) rfl (by decide) (by decide)).1 (by decide)

end FlushObserver

namespace FlushObserver

/-! ## Loop-strategy step lemmas -/

lemma flushPhase_fst_counter (cfg : Config) (s : DetectorState) (snap : FiberSnapshot)
    (cst : Option String) (ev : CommitEvent) :
    (flushPhase cfg s snap cst ev).1.commitCountInCurrentTask = s.commitCountInCurrentTask := by
  rcases flushPhase_fst_cases cfg s snap cst ev with h | h <;> rw [h]

lemma flushPhase_fst_syncFlag (cfg : Config) (s : DetectorState) (snap : FiberSnapshot)
    (cst : Option String) (ev : CommitEvent) :
    (flushPhase cfg s snap cst ev).1.syncLoopFiredThisTask = s.syncLoopFiredThisTask := by
  rcases flushPhase_fst_cases cfg s snap cst ev with h | h <;> rw [h]

lemma flushPhase_fst_disposed (cfg : Config) (s : DetectorState) (snap : FiberSnapshot)
    (cst : Option String) (ev : CommitEvent) :
    (flushPhase cfg s snap cst ev).1.disposed = s.disposed := by
  rcases flushPhase_fst_cases cfg s snap cst ev with h | h <;> rw [h]

lemma flushPhase_fst_windowTimestamps (cfg : Config) (s : DetectorState)
    (snap : FiberSnapshot) (cst : Option String) (ev : CommitEvent) :
    (flushPhase cfg s snap cst ev).1.windowTimestamps = s.windowTimestamps := by
  rcases flushPhase_fst_cases cfg s snap cst ev with h | h <;> rw [h]

lemma flushPhase_fst_windowWritePos (cfg : Config) (s : DetectorState)
    (snap : FiberSnapshot) (cst : Option String) (ev : CommitEvent) :
    (flushPhase cfg s snap cst ev).1.windowWritePos = s.windowWritePos := by
  rcases flushPhase_fst_cases cfg s snap cst ev with h | h <;> rw [h]

lemma flushPhase_fst_windowFilled (cfg : Config) (s : DetectorState)
    (snap : FiberSnapshot) (cst : Option String) (ev : CommitEvent) :
    (flushPhase cfg s snap cst ev).1.windowFilled = s.windowFilled := by
  rcases flushPhase_fst_cases cfg s snap cst ev with h | h <;> rw [h]

lemma flushPhase_fst_lastCommitTime (cfg : Config) (s : DetectorState)
    (snap : FiberSnapshot) (cst : Option String) (ev : CommitEvent) :
    (flushPhase cfg s snap cst ev).1.lastCommitTime = s.lastCommitTime := by
  rcases flushPhase_fst_cases cfg s snap cst ev with h | h <;> rw [h]

lemma normalPath_scheduled (cfg : Config) (s : DetectorState) (root : RootState)
    (ev : CommitEvent) :
    (normalPath cfg s root ev).scheduled =
      (match (asyncPhase cfg { s with
          commitCountInCurrentTask := s.commitCountInCurrentTask + 1 } root ev).2.2 with
        | some t => [t]
        | none => []) := rfl

lemma normalPath_state_counter (cfg : Config) (s : DetectorState) (root : RootState)
    (ev : CommitEvent) :
    (normalPath cfg s root ev).state.commitCountInCurrentTask
      = s.commitCountInCurrentTask + 1 := by
  unfold normalPath
  dsimp only
  rw [flushPhase_fst_counter, (recordInWindow_fields _ _ _).2.2.2.2.2.2.1,
    asyncPhase_fst_counter]

lemma normalPath_state_syncFlag (cfg : Config) (s : DetectorState) (root : RootState)
    (ev : CommitEvent) :
    (normalPath cfg s root ev).state.syncLoopFiredThisTask = s.syncLoopFiredThisTask := by
  unfold normalPath
  dsimp only
  rw [flushPhase_fst_syncFlag, (recordInWindow_fields _ _ _).2.1, asyncPhase_fst_syncFlag]

lemma normalPath_state_disposed (cfg : Config) (s : DetectorState) (root : RootState)
    (ev : CommitEvent) :
    (normalPath cfg s root ev).state.disposed = s.disposed := by
  unfold normalPath
  dsimp only
  rw [flushPhase_fst_disposed, (recordInWindow_fields _ _ _).2.2.2.2.2.2.2.1,
    asyncPhase_fst_disposed]

lemma normalPath_state_windowTimestamps (cfg : Config) (s : DetectorState)
    (root : RootState) (ev : CommitEvent) :
    (normalPath cfg s root ev).state.windowTimestamps
      = s.windowTimestamps.set s.windowWritePos ev.now := by
  unfold normalPath
  dsimp only
  rw [flushPhase_fst_windowTimestamps, (recordInWindow_fields _ _ _).2.2.2.2.2.2.2.2,
    asyncPhase_fst_windowTimestamps, asyncPhase_fst_windowWritePos]

lemma syncFirePath_spec (cfg : Config) (s : DetectorState) (root : RootState)
    (ev : CommitEvent) :
    ∃ t, syncFirePath cfg s root ev
        = ⟨{ s with
              commitCountInCurrentTask := s.commitCountInCurrentTask + 1,
              syncLoopFiredThisTask := true,
              windowFilled := false,
              windowWritePos := 0,
              lastAsyncLoopFireTime := ev.now },
            (handleLoopDetection cfg
              { s with
                commitCountInCurrentTask := s.commitCountInCurrentTask + 1,
                syncLoopFiredThisTask := true,
                windowFilled := false,
                windowWritePos := 0,
                lastAsyncLoopFireTime := ev.now } root LoopPattern.sync
              (s.commitCountInCurrentTask + 1) none ev).1, [], [t]⟩
      ∧ t.loopReport.pattern = LoopPattern.sync
      ∧ t.loopReport.commitCount = s.commitCountInCurrentTask + 1 := by
  refine ⟨_, rfl, ?_, ?_⟩ <;> rw [handleLoopDetection_report] <;> rfl

lemma firingsOf_append (p : LoopPattern) (a b : List Scheduled) :
    firingsOf p (a ++ b) = firingsOf p a ++ firingsOf p b := by
  unfold firingsOf
  exact List.filter_append ..

lemma firingsOf_nil (p : LoopPattern) : firingsOf p [] = [] := rfl

lemma firingsOf_single_ne (p q : LoopPattern) (t : Scheduled)
    (h : t.loopReport.pattern = q) (hne : q ≠ p) : firingsOf p [t] = [] := by
  unfold firingsOf
  simp [h, hne]

lemma firingsOf_single_eq (p : LoopPattern) (t : Scheduled)
    (h : t.loopReport.pattern = p) : firingsOf p [t] = [t] := by
  unfold firingsOf
  simp [h]

lemma runCommits_cons (cfg : Config) (ev : CommitEvent) (evs : List CommitEvent)
    (s : DetectorState) (root : RootState) :
    runCommits cfg (ev :: evs) s root =
      ⟨(runCommits cfg evs (handleCommit cfg s root ev).state
          (handleCommit cfg s root ev).root).state,
       (runCommits cfg evs (handleCommit cfg s root ev).state
          (handleCommit cfg s root ev).root).root,
       (handleCommit cfg s root ev).flushes
         ++ (runCommits cfg evs (handleCommit cfg s root ev).state
              (handleCommit cfg s root ev).root).flushes,
       (handleCommit cfg s root ev).scheduled
         ++ (runCommits cfg evs (handleCommit cfg s root ev).state
              (handleCommit cfg s root ev).root).scheduled⟩ := rfl

lemma runCommits_append (cfg : Config) (a b : List CommitEvent) :
    ∀ (s : DetectorState) (root : RootState),
    runCommits cfg (a ++ b) s root =
      ⟨(runCommits cfg b (runCommits cfg a s root).state (runCommits cfg a s root).root).state,
       (runCommits cfg b (runCommits cfg a s root).state (runCommits cfg a s root).root).root,
       (runCommits cfg a s root).flushes
         ++ (runCommits cfg b (runCommits cfg a s root).state
              (runCommits cfg a s root).root).flushes,
       (runCommits cfg a s root).scheduled
         ++ (runCommits cfg b (runCommits cfg a s root).state
              (runCommits cfg a s root).root).scheduled⟩ := by
  induction a with
  | nil => intro s root; simp [runCommits]
  | cons ev rest ih =>
    intro s root
    rw [List.cons_append, runCommits_cons, runCommits_cons, ih]
    simp [List.append_assoc]

/-- A commit that cannot fire the bounded strategy: sync firings stay empty,
the counter increments, and the fired-flag and disposal flags persist. -/
lemma step_no_sync_fire (cfg : Config) (s : DetectorState) (root : RootState)
    (ev : CommitEvent) (hd : s.disposed = false)
    (hle : s.commitCountInCurrentTask + 1 ≤ cfg.maxCommitsPerTask) :
    firingsOf LoopPattern.sync (handleCommit cfg s root ev).scheduled = []
    ∧ (handleCommit cfg s root ev).state.commitCountInCurrentTask
        = s.commitCountInCurrentTask + 1
    ∧ (handleCommit cfg s root ev).state.syncLoopFiredThisTask = s.syncLoopFiredThisTask
    ∧ (handleCommit cfg s root ev).state.disposed = false := by
  rw [handleCommit_normal cfg s root ev hd (by intro hcontra; omega)]
  refine ⟨?_, normalPath_state_counter .., normalPath_state_syncFlag ..,
    by rw [normalPath_state_disposed]; exact hd⟩
  rw [normalPath_scheduled]
  cases hopt : (asyncPhase cfg { s with
      commitCountInCurrentTask := s.commitCountInCurrentTask + 1 } root ev).2.2 with
  | none => rfl
  | some t =>
    obtain ⟨hp, _, _⟩ := asyncPhase_sched_async _ _ _ _ _ hopt
    exact firingsOf_single_ne _ _ _ hp (by decide)

/-- The bounded strategy fires: a single sync-pattern firing whose commit
count is the counter value, the per-task flag set, and the ring buffer
reset. -/
lemma step_sync_fire (cfg : Config) (s : DetectorState) (root : RootState)
    (ev : CommitEvent) (hd : s.disposed = false)
    (hc : s.commitCountInCurrentTask + 1 > cfg.maxCommitsPerTask)
    (hf : s.syncLoopFiredThisTask = false) :
    ∃ t, (handleCommit cfg s root ev).scheduled = [t]
      ∧ t.loopReport.pattern = LoopPattern.sync
      ∧ t.loopReport.commitCount = s.commitCountInCurrentTask + 1
      ∧ (handleCommit cfg s root ev).flushes = []
      ∧ (handleCommit cfg s root ev).state.syncLoopFiredThisTask = true
      ∧ (handleCommit cfg s root ev).state.commitCountInCurrentTask
          = s.commitCountInCurrentTask + 1
      ∧ (handleCommit cfg s root ev).state.windowFilled = false
      ∧ (handleCommit cfg s root ev).state.windowWritePos = 0
      ∧ (handleCommit cfg s root ev).state.lastAsyncLoopFireTime = ev.now
      ∧ (handleCommit cfg s root ev).state.disposed = false := by
  rw [handleCommit_sync_fire cfg s root ev hd hc hf]
  obtain ⟨t, hEq, hp, hcc⟩ := syncFirePath_spec cfg s root ev
  rw [hEq]
  exact ⟨t, rfl, hp, hcc, rfl, rfl, rfl, rfl, rfl, rfl, hd⟩

/-- Once the per-task fired-flag is set, a commit schedules nothing at all and
the flag persists. -/
lemma step_flag_set (cfg : Config) (s : DetectorState) (root : RootState)
    (ev : CommitEvent) (hf : s.syncLoopFiredThisTask = true) :
    (handleCommit cfg s root ev).scheduled = []
    ∧ (handleCommit cfg s root ev).state.syncLoopFiredThisTask = true := by
  by_cases hd : s.disposed = true
  · unfold handleCommit
    rw [if_pos hd]
    exact ⟨rfl, hf⟩
  · rw [handleCommit_normal cfg s root ev (by simpa using hd) (by intro hcontra; rw [hf] at hcontra; exact absurd hcontra.2 (by simp))]
    refine ⟨?_, by rw [normalPath_state_syncFlag]; exact hf⟩
    rw [normalPath_scheduled,
      asyncPhase_snd_none _ _ _ _ (by intro hcond; rw [hf] at hcond; exact absurd hcond.2.1 (by simp))]

end FlushObserver

namespace FlushObserver

/-- Feeding commits that stay at or below the per-task threshold never fires
the bounded strategy, and the counter tracks the number of commits. -/
lemma runCommits_no_sync_fire (cfg : Config) (evs : List CommitEvent) :
    ∀ (s : DetectorState) (root : RootState), s.disposed = false →
    s.syncLoopFiredThisTask = false →
    s.commitCountInCurrentTask + evs.length ≤ cfg.maxCommitsPerTask →
    firingsOf LoopPattern.sync (runCommits cfg evs s root).scheduled = []
    ∧ (runCommits cfg evs s root).state.commitCountInCurrentTask
        = s.commitCountInCurrentTask + evs.length
    ∧ (runCommits cfg evs s root).state.syncLoopFiredThisTask = false
    ∧ (runCommits cfg evs s root).state.disposed = false := by
  induction evs with
  | nil => intro s root hd hf _; exact ⟨rfl, rfl, hf, hd⟩
  | cons ev rest ih =>
    intro s root hd hf hle
    rw [List.length_cons] at hle
    obtain ⟨h1, h2, h3, h4⟩ := step_no_sync_fire cfg s root ev hd (by omega)
    rw [runCommits_cons]
    obtain ⟨g1, g2, g3, g4⟩ := ih (handleCommit cfg s root ev).state
      (handleCommit cfg s root ev).root h4 (by rw [h3]; exact hf) (by rw [h2]; omega)
    refine ⟨?_, ?_, g3, g4⟩
    · dsimp only
      rw [firingsOf_append, h1, g1, List.nil_append]
    · dsimp only
      rw [List.length_cons]
      omega

/-- After the bounded strategy has fired, commits in the same task schedule
nothing at all and the fired-flag persists. -/
lemma runCommits_flag_set (cfg : Config) (evs : List CommitEvent) :
    ∀ (s : DetectorState) (root : RootState), s.syncLoopFiredThisTask = true →
    (runCommits cfg evs s root).scheduled = []
    ∧ (runCommits cfg evs s root).state.syncLoopFiredThisTask = true := by
  induction evs with
  | nil => intro s root hf; exact ⟨rfl, hf⟩
  | cons ev rest ih =>
    intro s root hf
    obtain ⟨h1, h2⟩ := step_flag_set cfg s root ev hf
    rw [runCommits_cons]
    obtain ⟨g1, g2⟩ := ih (handleCommit cfg s root ev).state
      (handleCommit cfg s root ev).root h2
    refine ⟨?_, g2⟩
    dsimp only
    rw [h1, g1, List.nil_append]

/-! ## Claim C2: bounded/per-task loop thresholds -/

/-- C2: starting from a fresh task, feeding exactly `maxCommitsPerTask`
commits (no task-boundary signal in between) never fires the bounded loop
strategy; feeding `maxCommitsPerTask + 1` commits fires it exactly once, with
pattern `sync` and `commitCount` equal to the number of commits observed in
the task at firing time (`maxCommitsPerTask + 1`). -/
theorem claim_C2_bounded_thresholds (cfg : Config) (s : DetectorState) (root : RootState)
    (evs : List CommitEvent) (hd : s.disposed = false)
    (h0 : s.commitCountInCurrentTask = 0) (hf : s.syncLoopFiredThisTask = false) :
    (evs.length = cfg.maxCommitsPerTask →
      firingsOf LoopPattern.sync (runCommits cfg evs s root).scheduled = [])
    ∧ (evs.length = cfg.maxCommitsPerTask + 1 →
      ∃ t, firingsOf LoopPattern.sync (runCommits cfg evs s root).scheduled = [t]
        ∧ t.loopReport.pattern = LoopPattern.sync
        ∧ t.loopReport.commitCount = cfg.maxCommitsPerTask + 1) := by
  constructor
  · intro hlen
    exact (runCommits_no_sync_fire cfg evs s root hd hf (by omega)).1
  · intro hlen
    have hne : evs ≠ [] := by
      intro hnil
      rw [hnil] at hlen
      simp at hlen
    have hsplit := List.dropLast_append_getLast hne
    obtain ⟨a1, a2, a3, a4⟩ := runCommits_no_sync_fire cfg evs.dropLast s root hd hf
      (by rw [List.length_dropLast, hlen]; omega)
    obtain ⟨t, b1, b2, b3, _, _, _, _, _, _, _⟩ :=
      step_sync_fire cfg (runCommits cfg evs.dropLast s root).state
        (runCommits cfg evs.dropLast s root).root (evs.getLast hne) a4
        (by rw [a2, h0, List.length_dropLast, hlen]; omega) a3
    refine ⟨t, ?_, b2, ?_⟩
    · conv in evs => rw [Eq.symm hsplit]
      rw [runCommits_append, runCommits_cons]
      dsimp only
      rw [firingsOf_append, a1, List.nil_append, firingsOf_append, b1,
        firingsOf_single_eq _ _ b2]
      rfl
    · rw [b3, a2, h0, List.length_dropLast, hlen]
      omega

/-- Bounded-loop configuration fixture: per-task threshold 2. -/
def smallCfg : Config := ⟨false, true, 2, 2, 10, true, true⟩

/-- Witness for C2 at threshold 2: two commits never fire, three commits fire
exactly once with commit count 3. -/
theorem claim_C2_witness :
    firingsOf LoopPattern.sync
      (runCommits smallCfg [plainEv 0, plainEv 1] (initialState smallCfg) bareRoot).scheduled = []
    ∧ (∃ t, firingsOf LoopPattern.sync
        (runCommits smallCfg [plainEv 0, plainEv 1, plainEv 2]
          (initialState smallCfg) bareRoot).scheduled = [t]
        ∧ t.loopReport.pattern = LoopPattern.sync
        ∧ t.loopReport.commitCount = 3) :=
  ⟨(claim_C2_bounded_thresholds smallCfg (initialState smallCfg) bareRoot
      [plainEv 0, plainEv 1] rfl rfl rfl).1 rfl,
   (claim_C2_bounded_thresholds smallCfg (initialState smallCfg) bareRoot
      [plainEv 0, plainEv 1, plainEv 2] rfl rfl rfl).2 rfl⟩

/-! ## Claim C4: async strategy suppressed and reset by a bounded firing -/

/-- C4: once the bounded strategy has fired in a task (`syncLoopFiredThisTask`
set), the unbounded/sliding-window strategy never fires again for the
remainder of that task; on the firing commit itself the ring-buffer state is
reset (`windowFilled` cleared, write position zeroed, cooldown stamped) and no
async firing is scheduled; and the next task-boundary signal resets the
per-task fired flag. -/
theorem claim_C4_async_suppressed (cfg : Config) (s : DetectorState) (root : RootState)
    (ev : CommitEvent) (evs : List CommitEvent) :
    (s.syncLoopFiredThisTask = true →
      firingsOf LoopPattern.async (runCommits cfg evs s root).scheduled = [])
    ∧ (s.disposed = false →
       s.commitCountInCurrentTask + 1 > cfg.maxCommitsPerTask →
       s.syncLoopFiredThisTask = false →
        firingsOf LoopPattern.async (handleCommit cfg s root ev).scheduled = []
        ∧ (handleCommit cfg s root ev).state.windowFilled = false
        ∧ (handleCommit cfg s root ev).state.windowWritePos = 0
        ∧ (handleCommit cfg s root ev).state.lastAsyncLoopFireTime = ev.now
        ∧ (handleCommit cfg s root ev).state.syncLoopFiredThisTask = true)
    ∧ (s.disposed = false → (onTaskBoundary s).syncLoopFiredThisTask = false) := by
  refine ⟨?_, ?_, ?_⟩
  · intro hf
    rw [(runCommits_flag_set cfg evs s root hf).1]
    rfl
  · intro hd hc hf
    obtain ⟨t, h1, h2, _, _, h5, _, h7, h8, h9, _⟩ := step_sync_fire cfg s root ev hd hc hf
    refine ⟨?_, h7, h8, h9, h5⟩
    rw [h1]
    exact firingsOf_single_ne _ _ _ h2 (by decide)
  · intro hd
    unfold onTaskBoundary
    rw [if_neg (by simp [hd])]

/-- A detector state in which the bounded strategy has already fired this
task. -/
def firedState : DetectorState :=
  { initialState smallCfg with syncLoopFiredThisTask := true, commitCountInCurrentTask := 5 }

/-- A fresh-task state sitting at the bounded threshold, about to exceed it. -/
def atThresholdState : DetectorState :=
  { initialState smallCfg with commitCountInCurrentTask := 2 }

/-- Witness for C4: with the flag set, a further burst of commits schedules no
async firing; the firing commit itself resets the ring buffer; the boundary
signal clears the flag. -/
theorem claim_C4_witness :
    firingsOf LoopPattern.async
      (runCommits smallCfg [plainEv 0, plainEv 1, plainEv 2] firedState bareRoot).scheduled = []
    ∧ (firingsOf LoopPattern.async
          (handleCommit smallCfg atThresholdState bareRoot (plainEv 7)).scheduled = []
        ∧ (handleCommit smallCfg atThresholdState bareRoot (plainEv 7)).state.windowFilled = false
        ∧ (handleCommit smallCfg atThresholdState bareRoot (plainEv 7)).state.windowWritePos = 0
        ∧ (handleCommit smallCfg atThresholdState bareRoot
            (plainEv 7)).state.lastAsyncLoopFireTime = 7
        ∧ (handleCommit smallCfg atThresholdState bareRoot
            (plainEv 7)).state.syncLoopFiredThisTask = true)
    ∧ (onTaskBoundary firedState).syncLoopFiredThisTask = false := by
  obtain ⟨w1, _, _⟩ := claim_C4_async_suppressed smallCfg firedState bareRoot (plainEv 7)
    [plainEv 0, plainEv 1, plainEv 2]
  obtain ⟨_, w2, _⟩ := claim_C4_async_suppressed smallCfg atThresholdState bareRoot (plainEv 7)
    [plainEv 0, plainEv 1, plainEv 2]
  obtain ⟨_, _, w3⟩ := claim_C4_async_suppressed smallCfg firedState bareRoot (plainEv 7)
    [plainEv 0, plainEv 1, plainEv 2]
  exact ⟨w1 rfl, w2 rfl (by decide) rfl, w3 rfl⟩

end FlushObserver

namespace FlushObserver

/-! ## Claim C3: sliding-window strategy characterization (corrected) -/

/-- C3 counterexample: after a bounded firing earlier in the same task, the
ring buffer has wrapped again, the span from the oldest retained timestamp to
now is under the window, and the cooldown since the strategy's last firing has
elapsed — all conditions of the claim's "if and only if" — yet the commit
fires nothing, because the bounded strategy's per-task flag also suppresses
the sliding-window strategy.  The pre-state is reached by an explicit commit
trace from the initial state (three commits at 0/1/2 fire the bounded strategy
at threshold 2; commits at 100/101 refill the two-slot ring buffer). -/
theorem claim_C3_counterexample :
    (runCommits smallCfg [plainEv 0, plainEv 1, plainEv 2, plainEv 100, plainEv 101]
        (initialState smallCfg) bareRoot).state.windowFilled = true
    ∧ (102 : Int) -
        (runCommits smallCfg [plainEv 0, plainEv 1, plainEv 2, plainEv 100, plainEv 101]
          (initialState smallCfg) bareRoot).state.windowTimestamps.getD
          (runCommits smallCfg [plainEv 0, plainEv 1, plainEv 2, plainEv 100, plainEv 101]
            (initialState smallCfg) bareRoot).state.windowWritePos 0 < smallCfg.windowMs
    ∧ (102 : Int) -
        (runCommits smallCfg [plainEv 0, plainEv 1, plainEv 2, plainEv 100, plainEv 101]
          (initialState smallCfg) bareRoot).state.lastAsyncLoopFireTime > smallCfg.windowMs
    ∧ firingsOf LoopPattern.async
        (handleCommit smallCfg
          (runCommits smallCfg [plainEv 0, plainEv 1, plainEv 2, plainEv 100, plainEv 101]
            (initialState smallCfg) bareRoot).state
          bareRoot (plainEv 102)).scheduled = [] := by
  refine ⟨?_, ?_, ?_, ?_⟩ <;> decide

/-- C3 (amended): on a non-disposed commit, the sliding-window strategy fires
if and only if the ring buffer has wrapped, the span from the oldest retained
timestamp to now is under `windowMs`, the time since this strategy's last
firing exceeds `windowMs`, **and** the bounded strategy has neither already
fired this task nor fires on this commit; when it fires it schedules exactly
one firing with pattern `async`, commit count `maxCommitsPerWindow + 1` and
window the measured span; and whenever the bounded strategy does not fire on
this commit, the commit's timestamp is written into the ring buffer whether or
not the sliding-window strategy fired. -/
theorem claim_C3_sliding_window (cfg : Config) (s : DetectorState) (root : RootState)
    (ev : CommitEvent) (hd : s.disposed = false) :
    (firingsOf LoopPattern.async (handleCommit cfg s root ev).scheduled ≠ [] ↔
      (s.commitCountInCurrentTask + 1 ≤ cfg.maxCommitsPerTask
        ∧ s.windowFilled = true ∧ s.syncLoopFiredThisTask = false
        ∧ ev.now - s.windowTimestamps.getD s.windowWritePos 0 < cfg.windowMs
        ∧ ev.now - s.lastAsyncLoopFireTime > cfg.windowMs))
    ∧ (∀ t, firingsOf LoopPattern.async (handleCommit cfg s root ev).scheduled = [t] →
        t.loopReport.pattern = LoopPattern.async
        ∧ t.loopReport.commitCount = cfg.maxCommitsPerWindow + 1
        ∧ t.loopReport.windowMs
            = some (ev.now - s.windowTimestamps.getD s.windowWritePos 0))
    ∧ ((s.commitCountInCurrentTask + 1 ≤ cfg.maxCommitsPerTask
          ∨ s.syncLoopFiredThisTask = true) →
        (handleCommit cfg s root ev).state.windowTimestamps
          = s.windowTimestamps.set s.windowWritePos ev.now) := by
  by_cases hsync : s.commitCountInCurrentTask + 1 > cfg.maxCommitsPerTask
      ∧ s.syncLoopFiredThisTask = false
  · obtain ⟨t, h1, h2, _⟩ := step_sync_fire cfg s root ev hd hsync.1 hsync.2
    have hempty : firingsOf LoopPattern.async (handleCommit cfg s root ev).scheduled = [] := by
      rw [h1]
      exact firingsOf_single_ne _ _ _ h2 (by decide)
    refine ⟨?_, ?_, ?_⟩
    · rw [hempty]
      simp only [ne_eq, not_true_eq_false, false_iff]
      intro hcontra
      omega
    · intro u hu
      rw [hempty] at hu
      exact absurd hu (by simp)
    · intro hcase
      rcases hcase with hle | hflag
      · omega
      · rw [hflag] at hsync
        exact absurd hsync.2 (by simp)
  · have hstep := handleCommit_normal cfg s root ev hd hsync
    have hsched := normalPath_scheduled cfg s root ev
    by_cases hcond : asyncFireCond cfg s ev
    · have hfire := asyncPhase_fire root
        (show asyncFireCond cfg
          { s with commitCountInCurrentTask := s.commitCountInCurrentTask + 1 } ev from hcond)
      rw [hfire] at hsched
      obtain ⟨t, hsome⟩ : ∃ t, (asyncPhase cfg { s with
          commitCountInCurrentTask := s.commitCountInCurrentTask + 1 } root ev).2.2
          = some t := by
        rw [hfire]
        exact ⟨_, rfl⟩
      have hlist : (handleCommit cfg s root ev).scheduled = [t] := by
        rw [hstep, normalPath_scheduled, hsome]
      obtain ⟨hp, hcc, hw⟩ := asyncPhase_sched_async cfg
        { s with commitCountInCurrentTask := s.commitCountInCurrentTask + 1 } root ev t hsome
      have hfirings : firingsOf LoopPattern.async (handleCommit cfg s root ev).scheduled
          = [t] := by
        rw [hlist]
        exact firingsOf_single_eq _ _ hp
      obtain ⟨c1, c2, c3, c4⟩ := hcond
      refine ⟨?_, ?_, ?_⟩
      · rw [hfirings]
        simp only [ne_eq, List.cons_ne_nil, not_false_eq_true, true_iff]
        have hle : s.commitCountInCurrentTask + 1 ≤ cfg.maxCommitsPerTask := by
          by_contra hgt
          exact hsync ⟨by omega, c2⟩
        exact ⟨hle, c1, c2, c3, c4⟩
      · intro u hu
        rw [hfirings] at hu
        obtain rfl : t = u := by simpa using hu
        exact ⟨hp, hcc, hw⟩
      · intro _
        rw [hstep, normalPath_state_windowTimestamps]
    · have hnone := asyncPhase_snd_none cfg
        { s with commitCountInCurrentTask := s.commitCountInCurrentTask + 1 } root ev hcond
      have hempty : firingsOf LoopPattern.async (handleCommit cfg s root ev).scheduled = [] := by
        rw [hstep, normalPath_scheduled, hnone]
        rfl
      refine ⟨?_, ?_, ?_⟩
      · rw [hempty]
        simp only [ne_eq, not_true_eq_false, false_iff]
        intro hcontra
        exact hcond ⟨hcontra.2.1, hcontra.2.2.1, hcontra.2.2.2.1, hcontra.2.2.2.2⟩
      · intro u hu
        rw [hempty] at hu
        exact absurd hu (by simp)
      · intro _
        rw [hstep, normalPath_state_windowTimestamps]

/-- A non-disposed state in which all amended firing conditions hold. -/
def readyAsyncState : DetectorState :=
  { initialState smallCfg with
      windowFilled := true,
      windowTimestamps := [100, 101],
      lastAsyncLoopFireTime := 0 }

/-- Witness for C3 (amended): at `readyAsyncState` the sliding-window strategy
fires at time 102 (buffer wrapped, span 2 < 10, cooldown 102 > 10, bounded
strategy idle). -/
theorem claim_C3_witness :
    firingsOf LoopPattern.async
      (handleCommit smallCfg readyAsyncState bareRoot (plainEv 102)).scheduled ≠ [] :=
  (claim_C3_sliding_window smallCfg readyAsyncState bareRoot (plainEv 102) rfl).1.mpr
    (by refine ⟨by decide, rfl, rfl, by decide, by decide⟩)

end FlushObserver

namespace FlushObserver

/-! ## Claim C9: walker layout-effect filtering (code bug) -/

/-- C9 evaluation at the failing inputs: src/walker.ts records a host fiber
(tag 5) carrying `LayoutMask` into `withLayoutEffects`, and its effect search
matches an effect whose tag has only `HookLayout` (no `HookHasEffect`); the
revised walker bundled in src/index.ts — the behavior asserted by the claim,
by walker.test.ts ("excludes host fibers from withLayoutEffects") and by the
spec — excludes the host fiber and rejects the stale effect. -/
theorem claim_C9_walker_eval :
    ((Walker.walkFiber compWithHostFiber FiberLink.null emptySnapshot).withLayoutEffects.map
      (·.tag)) = [0, 5]
    ∧ ((WalkerRevised.snapshotFromFiber compWithHostFiber).withLayoutEffects.map (·.tag)) = [0]
    ∧ Walker.readLayoutEffectSource staleEffectFiber = some "stale-layout-effect-body"
    ∧ WalkerRevised.readLayoutEffectSource staleEffectFiber = none := by
  refine ⟨?_, ?_, ?_, ?_⟩ <;> decide

/-! ## Claim C1: flush-report attribution for same-task chains (corrected) -/

lemma handleCommit_root_current (cfg : Config) (s : DetectorState) (root : RootState)
    (ev : CommitEvent) :
    (handleCommit cfg s root ev).root.current = root.current := by
  unfold handleCommit
  split
  · rfl
  · split
    · unfold syncFirePath
      dsimp only
      rw [handleLoopDetection_root_current]
    · unfold normalPath
      dsimp only
      rw [asyncPhase_root_current]

lemma normalPath_state_commitInCurrentTask (cfg : Config) (s : DetectorState)
    (root : RootState) (ev : CommitEvent) :
    (normalPath cfg s root ev).state.commitInCurrentTask = true := rfl

lemma normalPath_state_lastCommitTime (cfg : Config) (s : DetectorState)
    (root : RootState) (ev : CommitEvent) :
    (normalPath cfg s root ev).state.lastCommitTime = ev.now := rfl

lemma normalPath_state_lastCommitSnapshot (cfg : Config) (s : DetectorState)
    (root : RootState) (ev : CommitEvent) :
    (normalPath cfg s root ev).state.lastCommitSnapshot
      = some (Walker.snapshotCommitFibers root) := by
  unfold normalPath
  dsimp only
  rw [snapshotCommitFibers_congr (asyncPhase_root_current ..)]

lemma normalPath_state_flushReports (cfg : Config) (s : DetectorState)
    (root : RootState) (ev : CommitEvent) :
    (normalPath cfg s root ev).state.flushReportsThisTask
      = (flushPhase cfg
          (recordInWindow cfg
            ((asyncPhase cfg { s with
                commitCountInCurrentTask := s.commitCountInCurrentTask + 1 } root ev).1)
            ev.now)
          (Walker.snapshotCommitFibers root)
          (if cfg.onFlushSet then ev.stack else none) ev).1.flushReportsThisTask := by
  unfold normalPath
  dsimp only
  rw [snapshotCommitFibers_congr (asyncPhase_root_current ..)]

/-- The first commit of a task (nothing stored yet) produces no flush report;
it records the snapshot, stamps the time, and marks the task as having seen a
commit. -/
lemma first_commit_step (cfg : Config) (s : DetectorState) (root : RootState)
    (ev : CommitEvent) (hd : s.disposed = false)
    (hcnt : s.commitCountInCurrentTask + 1 ≤ cfg.maxCommitsPerTask)
    (hforced : s.commitInCurrentTask = false) :
    (handleCommit cfg s root ev).flushes = []
    ∧ (handleCommit cfg s root ev).state.flushReportsThisTask = s.flushReportsThisTask
    ∧ (handleCommit cfg s root ev).state.commitInCurrentTask = true
    ∧ (handleCommit cfg s root ev).state.lastCommitSnapshot
        = some (Walker.snapshotCommitFibers root)
    ∧ (handleCommit cfg s root ev).state.lastCommitTime = ev.now
    ∧ (handleCommit cfg s root ev).state.commitCountInCurrentTask
        = s.commitCountInCurrentTask + 1
    ∧ (handleCommit cfg s root ev).state.syncLoopFiredThisTask = s.syncLoopFiredThisTask
    ∧ (handleCommit cfg s root ev).state.disposed = false
    ∧ (handleCommit cfg s root ev).root.current = root.current := by
  have hstep := handleCommit_normal cfg s root ev hd (by intro hcontra; omega)
  have hng : ¬ ((recordInWindow cfg
        ((asyncPhase cfg { s with
            commitCountInCurrentTask := s.commitCountInCurrentTask + 1 } root ev).1)
        ev.now).commitInCurrentTask = true
      ∧ cfg.onFlushSet = true
      ∧ (recordInWindow cfg
          ((asyncPhase cfg { s with
              commitCountInCurrentTask := s.commitCountInCurrentTask + 1 } root ev).1)
          ev.now).syncLoopFiredThisTask = false
      ∧ (recordInWindow cfg
          ((asyncPhase cfg { s with
              commitCountInCurrentTask := s.commitCountInCurrentTask + 1 } root ev).1)
          ev.now).flushReportsThisTask < MAX_FLUSH_REPORTS_PER_TASK
      ∧ ev.sampled = true) := by
    intro hg
    have := hg.1
    rw [(recordInWindow_fields _ _ _).1, asyncPhase_fst_commitInCurrentTask] at this
    rw [hforced] at this
    exact Bool.false_ne_true this
  refine ⟨?_, ?_, ?_, ?_, ?_, ?_, ?_, ?_, handleCommit_root_current ..⟩
  · rw [hstep, normalPath_flushes, flushPhase_no_guard _ _ hng]
  · rw [hstep, normalPath_state_flushReports, flushPhase_no_guard _ _ hng]
    dsimp only
    rw [(recordInWindow_fields _ _ _).2.2.1, asyncPhase_fst_flushReports]
  · rw [hstep, normalPath_state_commitInCurrentTask]
  · rw [hstep, normalPath_state_lastCommitSnapshot]
  · rw [hstep, normalPath_state_lastCommitTime]
  · rw [hstep, normalPath_state_counter]
  · rw [hstep, normalPath_state_syncFlag]
  · rw [hstep, normalPath_state_disposed]
    exact hd

/-- A forced (same-task) commit whose attributed snapshot classifies to a
reportable pattern: one flush report is emitted while the per-task cap allows,
none afterwards; the invariant fields advance. -/
lemma forced_step_spec (cfg : Config) (s : DetectorState) (root : RootState)
    (ev : CommitEvent) (snap : FiberSnapshot) (hd : s.disposed = false)
    (hcnt : s.commitCountInCurrentTask + 1 ≤ cfg.maxCommitsPerTask)
    (hsnap : Walker.snapshotCommitFibers root = snap)
    (hforced : s.commitInCurrentTask = true) (hof : cfg.onFlushSet = true)
    (hflag : s.syncLoopFiredThisTask = false) (hsam : ev.sampled = true)
    (hlast : s.lastCommitSnapshot = some snap)
    (hcls : (classifyPattern snap).pattern ≠ FlushPattern.setStateOutsideReact) :
    (s.flushReportsThisTask < 3 →
      ∃ rep, (handleCommit cfg s root ev).flushes = [rep]
        ∧ rep.pattern = (classifyPattern snap).pattern
        ∧ rep.evidence = (classifyPattern snap).evidence
        ∧ rep.suspects = (classifyPattern snap).suspects
        ∧ rep.flushedEffectsCount = snap.withLayoutEffects.length
        ∧ rep.blockingDurationMs = ev.now - s.lastCommitTime
        ∧ rep.timestamp = ev.now
        ∧ (handleCommit cfg s root ev).state.flushReportsThisTask
            = s.flushReportsThisTask + 1)
    ∧ (¬ s.flushReportsThisTask < 3 →
      (handleCommit cfg s root ev).flushes = []
      ∧ (handleCommit cfg s root ev).state.flushReportsThisTask = s.flushReportsThisTask)
    ∧ (handleCommit cfg s root ev).state.commitInCurrentTask = true
    ∧ (handleCommit cfg s root ev).state.lastCommitSnapshot = some snap
    ∧ (handleCommit cfg s root ev).state.lastCommitTime = ev.now
    ∧ (handleCommit cfg s root ev).state.commitCountInCurrentTask
        = s.commitCountInCurrentTask + 1
    ∧ (handleCommit cfg s root ev).state.syncLoopFiredThisTask = false
    ∧ (handleCommit cfg s root ev).state.disposed = false
    ∧ (handleCommit cfg s root ev).root.current = root.current := by
  have hstep := handleCommit_normal cfg s root ev hd (by intro hcontra; omega)
  have hLs : (recordInWindow cfg
        ((asyncPhase cfg { s with
            commitCountInCurrentTask := s.commitCountInCurrentTask + 1 } root ev).1)
        ev.now).lastCommitSnapshot = s.lastCommitSnapshot := by
    rw [(recordInWindow_fields _ _ _).2.2.2.1, asyncPhase_fst_lastCommitSnapshot]
  have hLt : (recordInWindow cfg
        ((asyncPhase cfg { s with
            commitCountInCurrentTask := s.commitCountInCurrentTask + 1 } root ev).1)
        ev.now).lastCommitTime = s.lastCommitTime := by
    rw [(recordInWindow_fields _ _ _).2.2.2.2.2.1, asyncPhase_fst_lastCommitTime]
  have hRf : (recordInWindow cfg
        ((asyncPhase cfg { s with
            commitCountInCurrentTask := s.commitCountInCurrentTask + 1 } root ev).1)
        ev.now).flushReportsThisTask = s.flushReportsThisTask := by
    rw [(recordInWindow_fields _ _ _).2.2.1, asyncPhase_fst_flushReports]
  have hLk : (recordInWindow cfg
        ((asyncPhase cfg { s with
            commitCountInCurrentTask := s.commitCountInCurrentTask + 1 } root ev).1)
        ev.now).lastCommitStack = s.lastCommitStack := by
    rw [(recordInWindow_fields _ _ _).2.2.2.2.1, asyncPhase_fst_lastCommitStack]
  have htrig : ((recordInWindow cfg
        ((asyncPhase cfg { s with
            commitCountInCurrentTask := s.commitCountInCurrentTask + 1 } root ev).1)
        ev.now).lastCommitSnapshot.getD (Walker.snapshotCommitFibers root)) = snap := by
    rw [hLs, hlast]
    rfl
  refine ⟨?_, ?_, ?_, ?_, ?_, ?_, ?_, ?_, handleCommit_root_current ..⟩
  · intro hcap
    have hg : (recordInWindow cfg
          ((asyncPhase cfg { s with
              commitCountInCurrentTask := s.commitCountInCurrentTask + 1 } root ev).1)
          ev.now).commitInCurrentTask = true
        ∧ cfg.onFlushSet = true
        ∧ (recordInWindow cfg
            ((asyncPhase cfg { s with
                commitCountInCurrentTask := s.commitCountInCurrentTask + 1 } root ev).1)
            ev.now).syncLoopFiredThisTask = false
        ∧ (recordInWindow cfg
            ((asyncPhase cfg { s with
                commitCountInCurrentTask := s.commitCountInCurrentTask + 1 } root ev).1)
            ev.now).flushReportsThisTask < MAX_FLUSH_REPORTS_PER_TASK
        ∧ ev.sampled = true := by
      refine ⟨?_, hof, ?_, ?_, hsam⟩
      · rw [(recordInWindow_fields _ _ _).1, asyncPhase_fst_commitInCurrentTask]
        exact hforced
      · rw [(recordInWindow_fields _ _ _).2.1, asyncPhase_fst_syncFlag]
        exact hflag
      · rw [hRf]
        exact hcap
    have hemit := flushPhase_emit (Walker.snapshotCommitFibers root)
      (if cfg.onFlushSet then ev.stack else none) hg (by rw [htrig]; exact hcls)
    refine ⟨{ timestamp := ev.now,
              pattern := (classifyPattern snap).pattern,
              evidence := (classifyPattern snap).evidence,
              suspects := (classifyPattern snap).suspects,
              flushedEffectsCount := snap.withLayoutEffects.length,
              blockingDurationMs := ev.now - s.lastCommitTime,
              setStateLocation := pickSetStateLocation snap.withLayoutEffects,
              userFrame :=
                match parseUserFrame (if cfg.onFlushSet then ev.stack else none) with
                | some f => some f
                | none => parseUserFrame s.lastCommitStack },
            ?_, rfl, rfl, rfl, rfl, rfl, rfl, ?_⟩
    · rw [hstep, normalPath_flushes, hemit, htrig, hLt, hLk]
    · rw [hstep, normalPath_state_flushReports, hemit]
      dsimp only
      rw [hRf]
  · intro hcap
    have hng : ¬ ((recordInWindow cfg
          ((asyncPhase cfg { s with
              commitCountInCurrentTask := s.commitCountInCurrentTask + 1 } root ev).1)
          ev.now).commitInCurrentTask = true
        ∧ cfg.onFlushSet = true
        ∧ (recordInWindow cfg
            ((asyncPhase cfg { s with
                commitCountInCurrentTask := s.commitCountInCurrentTask + 1 } root ev).1)
            ev.now).syncLoopFiredThisTask = false
        ∧ (recordInWindow cfg
            ((asyncPhase cfg { s with
                commitCountInCurrentTask := s.commitCountInCurrentTask + 1 } root ev).1)
            ev.now).flushReportsThisTask < MAX_FLUSH_REPORTS_PER_TASK
        ∧ ev.sampled = true) := by
      intro hg
      have := hg.2.2.2.1
      rw [hRf] at this
      exact hcap this
    constructor
    · rw [hstep, normalPath_flushes, flushPhase_no_guard _ _ hng]
    · rw [hstep, normalPath_state_flushReports, flushPhase_no_guard _ _ hng]
      dsimp only
      rw [hRf]
  · rw [hstep, normalPath_state_commitInCurrentTask]
  · rw [hstep, normalPath_state_lastCommitSnapshot, hsnap]
  · rw [hstep, normalPath_state_lastCommitTime]
  · rw [hstep, normalPath_state_counter]
  · rw [hstep, normalPath_state_syncFlag]
    exact hflag
  · rw [hstep, normalPath_state_disposed]
    exact hd

end FlushObserver

namespace FlushObserver

/-- Running a whole chain of forced same-task commits through `handleCommit`:
each commit emits one flush report until the per-task cap of
`MAX_FLUSH_REPORTS_PER_TASK = 3` is reached, so the total is
`min (reports + length) 3 - reports`; the first report of the chain carries
the classification of the attributed snapshot and measures blocking from the
previously stored commit time. -/
lemma flushChain_run (cfg : Config) (snap : FiberSnapshot)
    (hcls : (classifyPattern snap).pattern ≠ FlushPattern.setStateOutsideReact)
    (hof : cfg.onFlushSet = true) :
    ∀ (evs : List CommitEvent) (s : DetectorState) (root : RootState),
    (∀ ev ∈ evs, ev.sampled = true) →
    s.disposed = false →
    s.syncLoopFiredThisTask = false →
    s.commitCountInCurrentTask + evs.length ≤ cfg.maxCommitsPerTask →
    Walker.snapshotCommitFibers root = snap →
    s.commitInCurrentTask = true →
    s.lastCommitSnapshot = some snap →
    (runCommits cfg evs s root).flushes.length
        = min (s.flushReportsThisTask + evs.length) 3 - s.flushReportsThisTask
    ∧ (∀ e es, evs = e :: es → s.flushReportsThisTask < 3 →
        ∃ rep, (runCommits cfg evs s root).flushes.head? = some rep
          ∧ rep.pattern = (classifyPattern snap).pattern
          ∧ rep.evidence = (classifyPattern snap).evidence
          ∧ rep.suspects = (classifyPattern snap).suspects
          ∧ rep.flushedEffectsCount = snap.withLayoutEffects.length
          ∧ rep.blockingDurationMs = e.now - s.lastCommitTime
          ∧ rep.timestamp = e.now) := by
  intro evs
  induction evs with
  | nil =>
    intro s root _ _ _ _ _ _ _
    constructor
    · simp only [runCommits, List.length_nil, Nat.add_zero]
      omega
    · intro e es h
      exact absurd h (by simp)
  | cons ev rest ih =>
    intro s root hsam hd hflag hcnt hsnap hforced hlast
    rw [List.length_cons] at hcnt
    obtain ⟨hA, hB, hC1, hC2, hC3, hC4, hC5, hC6, hC7⟩ :=
      forced_step_spec cfg s root ev snap hd (by omega) hsnap hforced hof hflag
        (hsam ev (List.mem_cons_self ..)) hlast hcls
    have hsnap' : Walker.snapshotCommitFibers (handleCommit cfg s root ev).root = snap :=
      (snapshotCommitFibers_congr hC7).trans hsnap
    obtain ⟨ihlen, _⟩ := ih (handleCommit cfg s root ev).state (handleCommit cfg s root ev).root
      (fun e he => hsam e (List.mem_cons_of_mem _ he)) hC6 hC5
      (by rw [hC4]; omega) hsnap' hC1 hC2
    by_cases hm : s.flushReportsThisTask < 3
    · obtain ⟨rep, hfl, hp, he, hs, hc, hb, ht, hR⟩ := hA hm
      constructor
      · rw [runCommits_cons]
        dsimp only
        rw [List.length_append, hfl, ihlen, hR, List.length_cons]
        simp only [List.length_cons, List.length_nil]
        omega
      · intro e es heq hcap
        injection heq with h1 h2
        subst h1
        refine ⟨rep, ?_, hp, he, hs, hc, hb, ht⟩
        rw [runCommits_cons]
        dsimp only
        rw [hfl]
        rfl
    · obtain ⟨hfl, hR⟩ := hB hm
      constructor
      · rw [runCommits_cons]
        dsimp only
        rw [List.length_append, hfl, ihlen, hR, List.length_cons]
        simp only [List.length_nil]
        omega
      · intro e es heq hcap
        exact absurd hcap hm

/-- C1: the spec says a chain of N same-task forced commits yields exactly one
FlushReport attributed to the chain's first commit. The detector in
src/detector.ts instead reports per link: every forced commit after the first
emits its own report until the per-task cap of three, so an N-commit chain
yields `min (N - 1) 3` reports, each attributed to the previous commit's
snapshot. The amended statement: from a fresh task, a chain of sampled commits
whose snapshot classifies to a reportable pattern produces `min (N - 1) 3`
reports, and the first report carries the first commit's snapshot
classification with blocking duration measured from the first commit to the
second. -/
theorem claim_C1_per_link_reports (cfg : Config) (root : RootState)
    (evs : List CommitEvent) (hof : cfg.onFlushSet = true)
    (hsam : ∀ ev ∈ evs, ev.sampled = true)
    (hlen : evs.length ≤ cfg.maxCommitsPerTask)
    (hcls : (classifyPattern (Walker.snapshotCommitFibers root)).pattern
        ≠ FlushPattern.setStateOutsideReact) :
    (runCommits cfg evs (initialState cfg) root).flushes.length = min (evs.length - 1) 3
    ∧ ∀ e1 e2 rest, evs = e1 :: e2 :: rest →
        ∃ rep, (runCommits cfg evs (initialState cfg) root).flushes.head? = some rep
          ∧ rep.pattern = (classifyPattern (Walker.snapshotCommitFibers root)).pattern
          ∧ rep.evidence = (classifyPattern (Walker.snapshotCommitFibers root)).evidence
          ∧ rep.suspects = (classifyPattern (Walker.snapshotCommitFibers root)).suspects
          ∧ rep.flushedEffectsCount
              = (Walker.snapshotCommitFibers root).withLayoutEffects.length
          ∧ rep.blockingDurationMs = e2.now - e1.now
          ∧ rep.timestamp = e2.now := by
  cases evs with
  | nil =>
    constructor
    · simp [runCommits]
    · intro e1 e2 rest h
      exact absurd h (by simp)
  | cons e1 tail =>
    rw [List.length_cons] at hlen
    obtain ⟨hf1, hf2, hf3, hf4, hf5, hf6, hf7, hf8, hf9⟩ :=
      first_commit_step cfg (initialState cfg) root e1 rfl
        (by have h0 : (initialState cfg).commitCountInCurrentTask = 0 := rfl
            rw [h0]; omega)
        rfl
    have hsnap' : Walker.snapshotCommitFibers (handleCommit cfg (initialState cfg) root e1).root
        = Walker.snapshotCommitFibers root := snapshotCommitFibers_congr hf9
    have hfr1 : (handleCommit cfg (initialState cfg) root e1).state.flushReportsThisTask = 0 :=
      hf2.trans rfl
    obtain ⟨hlenEq, hhead⟩ := flushChain_run cfg (Walker.snapshotCommitFibers root) hcls hof
      tail (handleCommit cfg (initialState cfg) root e1).state
      (handleCommit cfg (initialState cfg) root e1).root
      (fun e he => hsam e (List.mem_cons_of_mem _ he)) hf8 (hf7.trans rfl)
      (by rw [hf6]
          have h0 : (initialState cfg).commitCountInCurrentTask = 0 := rfl
          rw [h0]; omega)
      hsnap' hf3 hf4
    constructor
    · rw [runCommits_cons]
      dsimp only
      rw [List.length_append, hf1, hlenEq, hfr1, List.length_cons]
      simp only [List.length_nil]
      omega
    · intro f1 f2 rest heq
      injection heq with h1 h2
      subst h1
      subst h2
      obtain ⟨rep, h1, h2, h3, h4, h5, h6, h7⟩ :=
        hhead f2 rest rfl (by rw [hfr1]; decide)
      refine ⟨rep, ?_, h2, h3, h4, h5, ?_, h7⟩
      · rw [runCommits_cons]
        dsimp only
        rw [hf1, List.nil_append]
        exact h1
      · rw [h6, hf5]

end FlushObserver

namespace FlushObserver

/-- C1 counterexample: a chain of three same-task sampled commits against a
root whose snapshot classifies as the layout-effect pattern yields TWO flush
reports, not the exactly one that the spec claims for an N-commit chain. -/
theorem claim_C1_counterexample :
    (runCommits defaultCfg [plainEv 0, plainEv 5, plainEv 9] (initialState defaultCfg)
        layoutRoot).flushes.length = 2
    ∧ ¬ (runCommits defaultCfg [plainEv 0, plainEv 5, plainEv 9] (initialState defaultCfg)
          layoutRoot).flushes.length = 1 := by
  constructor
  · decide
  · decide

/-- Witness for the amended C1 statement at a concrete three-commit chain. -/
theorem claim_C1_witness :
    (runCommits defaultCfg [plainEv 0, plainEv 5, plainEv 9] (initialState defaultCfg)
        layoutRoot).flushes.length = min ([plainEv 0, plainEv 5, plainEv 9].length - 1) 3
    ∧ ∃ rep, (runCommits defaultCfg [plainEv 0, plainEv 5, plainEv 9]
          (initialState defaultCfg) layoutRoot).flushes.head? = some rep
        ∧ rep.blockingDurationMs = (plainEv 5).now - (plainEv 0).now
        ∧ rep.timestamp = (plainEv 5).now
        ∧ rep.pattern = (classifyPattern (Walker.snapshotCommitFibers layoutRoot)).pattern := by
  have h := claim_C1_per_link_reports defaultCfg layoutRoot [plainEv 0, plainEv 5, plainEv 9]
    rfl (by decide) (by decide) (by decide)
  obtain ⟨rep, h1, h2, _, _, _, h6, h7⟩ := h.2 (plainEv 0) (plainEv 5) [plainEv 9] rfl
  exact ⟨h.1, rep, h1, h6, h7, h2⟩

end FlushObserver
